import Mathlib

/-!
Verification development for the frigidaire-bot conversational agent core:
the conversation store (`src/ai/conversationStore.ts`), provider registry
(`src/ai/providerRegistry.ts`), tool catalog (`src/ai/tools.ts`), the
OpenAI provider's summarize capability (`src/ai/providers/openaiProvider.ts`)
and the agent orchestrator (`agentOrchestrator.ts`).

Modelling conventions (shallow embedding):
- JS `Map` objects become association lists with `Map.set` semantics
  (replace in place, append when new).
- `Date.now()` readings within one operation are modelled by an explicit
  `now : Int` parameter (milliseconds).
- Network-bound calls (provider chat calls, backend summarize and image
  calls, replies) are modelled by oracle inputs: an `Except Unit _` value
  is the call's outcome, `.error ()` being a thrown exception.
- The developer-prompt builder depends on the wall clock and `Intl`
  formatting; it is abstracted as a function `AiProvider → String`
  supplied in the environment (the orchestrator only ever stores the
  produced string, never inspects it).
-/

/-- `NormalizedContentPart` of `src/ai/types.ts`. -/
inductive NormalizedContentPart where
  | text (text : String)
  | image (url : String)
deriving DecidableEq, Repr

/-- Message roles of `src/ai/types.ts` (`ConversationEntry`, kind `message`). -/
inductive Role where
  | system
  | developer
  | assistant
  | user
deriving DecidableEq, Repr

/-- JSON values (`Record<string, unknown>` payloads are JSON in this code
base: tool-call arguments are produced by `JSON.parse`). Numbers are
modelled as integers; no claim depends on numeric fineness. -/
inductive Json where
  | null
  | bool (b : Bool)
  | num (n : Int)
  | str (s : String)
  | arr (elems : List Json)
  | obj (fields : List (String × Json))
deriving Repr

/-- `ConversationEntry` of `src/ai/types.ts`: tagged union of a chat
message, a tool call and a tool result. -/
inductive ConversationEntry where
  | message (role : Role) (content : List NormalizedContentPart)
  | tool_call (id : String) (name : String) (arguments : Json)
  | tool_result (id : String) (name : String) (content : String)
deriving Repr

/-- Opaque backend continuation data (`thoughts`, e.g. Gemini thought
signatures, a `string[]`); the orchestrator threads it through unexamined. -/
abbrev ThoughtData := List String

/-- `ConversationState` of `src/ai/conversationStore.ts`. -/
structure ConversationState where
  providerId : String
  entries : List ConversationEntry
  timestamp : Int
  thoughts : Option ThoughtData
deriving Repr

/-! Association lists with JS `Map` semantics. -/

/-- `Map.get`. -/
def alGet {α : Type} : List (String × α) → String → Option α
  | [], _ => none
  | (k, v) :: rest, key => if k = key then some v else alGet rest key

/-- `Map.set`: replaces in place when the key is present, appends otherwise. -/
def alSet {α : Type} : List (String × α) → String → α → List (String × α)
  | [], key, v => [(key, v)]
  | (k, w) :: rest, key, v =>
      if k = key then (k, v) :: rest else (k, w) :: alSet rest key v

/-- `Map.delete`. -/
def alErase {α : Type} : List (String × α) → String → List (String × α)
  | [], _ => []
  | (k, v) :: rest, key => if k = key then rest else (k, v) :: alErase rest key

theorem alGet_alSet_self {α : Type} (l : List (String × α)) (k : String) (v : α) :
    alGet (alSet l k v) k = some v := by
  induction l with
  | nil => simp [alGet, alSet]
  | cons p rest ih =>
    obtain ⟨k', w⟩ := p
    by_cases h : k' = k
    · simp [alSet, alGet, h]
    · simp [alSet, alGet, h, ih]

theorem alGet_alSet_other {α : Type} (l : List (String × α)) (k k' : String) (v : α)
    (h : k ≠ k') : alGet (alSet l k v) k' = alGet l k' := by
  induction l with
  | nil => simp [alGet, alSet, h]
  | cons p rest ih =>
    obtain ⟨k₀, w⟩ := p
    by_cases h₀ : k₀ = k
    · subst h₀
      simp [alSet, alGet, h]
    · simp [alSet, alGet, h₀, ih]

theorem alGet_eq_none_of_not_mem {α : Type} (l : List (String × α)) (k : String)
    (h : k ∉ l.map Prod.fst) : alGet l k = none := by
  induction l with
  | nil => simp [alGet]
  | cons p rest ih =>
    obtain ⟨k', w⟩ := p
    simp only [List.map_cons, List.mem_cons] at h
    push_neg at h
    have hne : k' ≠ k := fun hc => h.1 hc.symm
    simp only [alGet, if_neg hne]
    exact ih h.2

theorem alGet_alErase_self {α : Type} (l : List (String × α)) (k : String)
    (huniq : (l.map Prod.fst).Nodup) : alGet (alErase l k) k = none := by
  induction l with
  | nil => simp [alGet, alErase]
  | cons p rest ih =>
    obtain ⟨k', w⟩ := p
    simp only [List.map_cons, List.nodup_cons] at huniq
    by_cases h : k' = k
    · subst h
      simp only [alErase, if_pos rfl]
      exact alGet_eq_none_of_not_mem rest k' huniq.1
    · simp only [alErase, if_neg h, alGet, if_neg h]
      exact ih huniq.2

/-! # Conversation store (`src/ai/conversationStore.ts`) -/

/-- CONVERSATION_TIMEOUT of `agentOrchestrator.ts`: 5 minutes. -/
def CONVERSATION_TIMEOUT : Int := 5 * 60 * 1000

/-- The `ConversationStore` class: a timeout and the backing `Map`. -/
structure ConversationStore where
  timeoutMs : Int
  store : List (String × ConversationState)

/-- `ConversationStore.get`: lazy expiry — an entry older than the timeout
is deleted as a side effect of the read and reported absent. -/
def ConversationStore.get (s : ConversationStore) (now : Int) (channelId : String) :
    ConversationStore × Option ConversationState :=
  match alGet s.store channelId with
  | none => (s, none)
  | some state =>
      if now - state.timestamp > s.timeoutMs then
        ({ s with store := alErase s.store channelId }, none)
      else
        (s, some state)

/-- `ConversationStore.set`. -/
def ConversationStore.set (s : ConversationStore) (channelId : String)
    (state : ConversationState) : ConversationStore :=
  { s with store := alSet s.store channelId state }

/-- `ConversationStore.update`: goes through `get` (with its eviction side
effect), then replaces only the entry list and refreshes the timestamp. -/
def ConversationStore.update (s : ConversationStore) (now : Int) (channelId : String)
    (entries : List ConversationEntry) : ConversationStore :=
  let r := s.get now channelId
  match r.2 with
  | none => r.1
  | some existing =>
      r.1.set channelId { existing with entries := entries, timestamp := now }

/-- `ConversationStore.touch`: refreshes only the timestamp of existing state. -/
def ConversationStore.touch (s : ConversationStore) (now : Int) (channelId : String) :
    ConversationStore :=
  let r := s.get now channelId
  match r.2 with
  | none => r.1
  | some existing => r.1.set channelId { existing with timestamp := now }

/-- `ConversationStore.switchProvider`: replaces only the provider id and
the timestamp of existing state. -/
def ConversationStore.switchProvider (s : ConversationStore) (now : Int)
    (channelId : String) (providerId : String) : ConversationStore :=
  let r := s.get now channelId
  match r.2 with
  | none => r.1
  | some existing =>
      r.1.set channelId { existing with providerId := providerId, timestamp := now }

/-- `ConversationStore.pruneExpired`: deletes every entry older than the
timeout. -/
def ConversationStore.pruneExpired (s : ConversationStore) (now : Int) : ConversationStore :=
  { s with store := s.store.filter (fun p => decide (now - p.2.timestamp ≤ s.timeoutMs)) }

/-! # Claim C4 — lazy expiry on `get` -/

/-- Fixture for the C4 counterexample: a state last touched at time 0. -/
def c4State : ConversationState :=
  { providerId := "openai", entries := [], timestamp := 0, thoughts := none }

/-- Fixture store for the C4 counterexample. -/
def c4Store : ConversationStore :=
  { timeoutMs := CONVERSATION_TIMEOUT, store := [("chan", c4State)] }

/-- C4 counterexample: the claim says `get` returns absent for every idle
delay `d ≥ timeout`, but the code expires only on the STRICT inequality
`Date.now() - state.timestamp > this.timeoutMs`: at `d = timeout` exactly
(here `now = 300000 = CONVERSATION_TIMEOUT`, `timestamp = 0`), `get`
still returns the live state, not absent. -/
theorem C4_claim_counterexample :
    CONVERSATION_TIMEOUT ≤ 300000 - c4State.timestamp
    ∧ (c4Store.get 300000 "chan").2 = some c4State := by
  constructor
  · decide
  · rfl

/-- C4 (amended: eviction happens for idle delays STRICTLY greater than
the timeout, `d > timeout`, not `d ≥ timeout`): for every stored state
whose idle delay exceeds the timeout, `get` returns absent and deletes the
entry as a side effect of the read, and any subsequent `get` on the
resulting store also returns absent — the entry is gone from the backing
map, so there is no resurrection. -/
theorem C4_get_expired_absent_and_evicted (s : ConversationStore) (ch : String)
    (st : ConversationState) (now : Int)
    (hget : alGet s.store ch = some st)
    (hexp : now - st.timestamp > s.timeoutMs)
    (huniq : (s.store.map Prod.fst).Nodup) :
    s.get now ch = ({ s with store := alErase s.store ch }, none)
    ∧ alGet (s.get now ch).1.store ch = none
    ∧ ∀ now', ((s.get now ch).1.get now' ch).2 = none := by
  have hgone : alGet (alErase s.store ch) ch = none := alGet_alErase_self s.store ch huniq
  have hmain : s.get now ch = ({ s with store := alErase s.store ch }, none) := by
    simp only [ConversationStore.get, hget, if_pos hexp]
  refine ⟨hmain, ?_, ?_⟩
  · rw [hmain]
    exact hgone
  · intro now'
    rw [hmain]
    simp only [ConversationStore.get, hgone]

/-- C4 witness: instantiates the amended theorem one millisecond past the
timeout on the concrete fixture store. -/
theorem C4_get_expired_absent_and_evicted_witness :
    c4Store.get 300001 "chan"
      = ({ c4Store with store := alErase c4Store.store "chan" }, none)
    ∧ alGet (c4Store.get 300001 "chan").1.store "chan" = none
    ∧ ∀ now', ((c4Store.get 300001 "chan").1.get now' "chan").2 = none :=
  C4_get_expired_absent_and_evicted c4Store "chan" c4State 300001 rfl
    (by decide) (by simp [c4Store])

/-! # Claim C8 — frame conditions of `update` / `touch` / `switchProvider` -/

/-- C8: for a channel with existing unexpired state, `update` replaces only
the entry list (provider id and continuation data preserved, timestamp
refreshed), `touch` changes only the timestamp, and `switchProvider`
changes only the provider id and timestamp (entry list and continuation
data unchanged); none of the three touches any other channel's entry; and
all three leave the store completely unchanged when the backing map holds
no state at all for the channel. (When the map holds only an EXPIRED
state, the sole effect of each operation is the read-side eviction of that
expired entry.) -/
theorem C8_store_ops_frame (s : ConversationStore) (now : Int) (ch : String)
    (st : ConversationState) (entries : List ConversationEntry) (pid : String) :
    (alGet s.store ch = some st → now - st.timestamp ≤ s.timeoutMs →
       s.update now ch entries
           = s.set ch { providerId := st.providerId, entries := entries,
                        timestamp := now, thoughts := st.thoughts }
       ∧ s.touch now ch
           = s.set ch { providerId := st.providerId, entries := st.entries,
                        timestamp := now, thoughts := st.thoughts }
       ∧ s.switchProvider now ch pid
           = s.set ch { providerId := pid, entries := st.entries,
                        timestamp := now, thoughts := st.thoughts }
       ∧ (∀ ch', ch' ≠ ch →
            alGet (s.update now ch entries).store ch' = alGet s.store ch'
            ∧ alGet (s.touch now ch).store ch' = alGet s.store ch'
            ∧ alGet (s.switchProvider now ch pid).store ch' = alGet s.store ch'))
    ∧ (alGet s.store ch = none →
       s.update now ch entries = s ∧ s.touch now ch = s ∧ s.switchProvider now ch pid = s)
    ∧ (alGet s.store ch = some st → now - st.timestamp > s.timeoutMs →
       s.update now ch entries = { s with store := alErase s.store ch }
       ∧ s.touch now ch = { s with store := alErase s.store ch }
       ∧ s.switchProvider now ch pid = { s with store := alErase s.store ch }) := by
  refine ⟨?_, ?_, ?_⟩
  · intro hget hfresh
    have hnot : ¬ (now - st.timestamp > s.timeoutMs) := not_lt.mpr hfresh
    have hu : s.update now ch entries
        = s.set ch { providerId := st.providerId, entries := entries,
                     timestamp := now, thoughts := st.thoughts } := by
      simp only [ConversationStore.update, ConversationStore.get, hget, if_neg hnot]
    have ht : s.touch now ch
        = s.set ch { providerId := st.providerId, entries := st.entries,
                     timestamp := now, thoughts := st.thoughts } := by
      simp only [ConversationStore.touch, ConversationStore.get, hget, if_neg hnot]
    have hs : s.switchProvider now ch pid
        = s.set ch { providerId := pid, entries := st.entries,
                     timestamp := now, thoughts := st.thoughts } := by
      simp only [ConversationStore.switchProvider, ConversationStore.get, hget, if_neg hnot]
    refine ⟨hu, ht, hs, ?_⟩
    intro ch' hne
    rw [hu, ht, hs]
    exact ⟨alGet_alSet_other _ _ _ _ (Ne.symm hne),
           alGet_alSet_other _ _ _ _ (Ne.symm hne),
           alGet_alSet_other _ _ _ _ (Ne.symm hne)⟩
  · intro hget
    refine ⟨?_, ?_, ?_⟩
    · simp only [ConversationStore.update, ConversationStore.get, hget]
    · simp only [ConversationStore.touch, ConversationStore.get, hget]
    · simp only [ConversationStore.switchProvider, ConversationStore.get, hget]
  · intro hget hexp
    refine ⟨?_, ?_, ?_⟩
    · simp only [ConversationStore.update, ConversationStore.get, hget, if_pos hexp]
    · simp only [ConversationStore.touch, ConversationStore.get, hget, if_pos hexp]
    · simp only [ConversationStore.switchProvider, ConversationStore.get, hget, if_pos hexp]

/-- Fixture for the C8 witness: a live entry one millisecond old. -/
def c8Store : ConversationStore :=
  { timeoutMs := CONVERSATION_TIMEOUT,
    store := [("chan", { providerId := "grok",
                         entries := [ConversationEntry.tool_result "1" "t" "r"],
                         timestamp := 99, thoughts := some ["sig"] })] }

/-- C8 witness: instantiates the frame theorem on a concrete live entry
(first conjunct) and on a channel with no entry (second conjunct). -/
theorem C8_store_ops_frame_witness :
    (c8Store.update 100 "chan" []
       = c8Store.set "chan" { providerId := "grok", entries := [],
                              timestamp := 100, thoughts := some ["sig"] })
    ∧ (c8Store.update 100 "nochan" [] = c8Store) := by
  constructor
  · exact ((C8_store_ops_frame c8Store 100 "chan"
      { providerId := "grok", entries := [ConversationEntry.tool_result "1" "t" "r"],
        timestamp := 99, thoughts := some ["sig"] } [] "x").1 rfl (by decide)).1
  · exact ((C8_store_ops_frame c8Store 100 "nochan"
      { providerId := "grok", entries := [], timestamp := 0, thoughts := none }
      [] "x").2.1 rfl).1

/-! # OpenAI adapter: `safeParseArguments` (`src/ai/providers/openaiProvider.ts`) -/

/-- Outcome of `JSON.parse` on a backend-supplied arguments text: either it
throws, or it produces a JSON value. -/
inductive JsParseOutcome where
  | throw
  | value (v : Json)
deriving Repr

/-- JavaScript truthiness of a `JSON.parse` result (`parsed && ...`). -/
def jsTruthy : Json → Bool
  | .null => false
  | .bool b => b
  | .num n => n != 0
  | .str s => s != ""
  | .arr _ => true
  | .obj _ => true

/-- JavaScript `typeof parsed === 'object'` on a `JSON.parse` result:
true for objects, arrays and `null`. -/
def jsTypeofObject : Json → Bool
  | .null => true
  | .arr _ => true
  | .obj _ => true
  | _ => false

/-- Whether a JSON value is a JSON object (a key-value mapping). -/
def Json.isObj : Json → Bool
  | .obj _ => true
  | _ => false

/-- `OpenAIProvider.safeParseArguments`: the payload is
`item.arguments ?? '{}'` (an absent payload defaults to the literal text
`'{}'`, which parses to the empty object); a parse that throws yields `{}`;
a parsed value is returned when it is truthy and `typeof ... === 'object'`,
otherwise `{}` is returned. The function is total: parsing never throws
out of the adapter. -/
def safeParseArguments (payload : Option JsParseOutcome) : Json :=
  match payload.getD (.value (.obj [])) with
  | .throw => .obj []
  | .value parsed =>
      if jsTruthy parsed && jsTypeofObject parsed then parsed else .obj []

/-- C7 counterexample: the claim says a payload parsing to a non-object
value yields the empty argument mapping, but a JSON ARRAY — not an object
(a key-value mapping) — is truthy and of JavaScript `typeof 'object'`, so
`safeParseArguments` returns the array itself, not `{}`: on the payload
text `"[1]"` the resulting argument mapping is the array `[1]`. -/
theorem C7_claim_counterexample :
    Json.isObj (Json.arr [Json.num 1]) = false
    ∧ safeParseArguments (some (.value (Json.arr [Json.num 1]))) = Json.arr [Json.num 1]
    ∧ safeParseArguments (some (.value (Json.arr [Json.num 1]))) ≠ Json.obj [] := by
  refine ⟨rfl, rfl, ?_⟩
  intro h
  simp [safeParseArguments, jsTruthy, jsTypeofObject] at h

/-- C7 (amended): parsing a tool-call arguments payload never throws out of
the adapter (`safeParseArguments` is total); an absent payload, a payload
whose parse throws, and a payload parsing to `null`, a boolean, a number or
a string all yield the empty argument mapping `{}`; a payload parsing to a
JSON object is returned as-is, and a payload parsing to a JSON ARRAY is
passed through unchanged (the lone divergence from "non-object ⇒ `{}`",
since an array is a truthy value of JavaScript `typeof 'object'`). -/
theorem C7_safeParseArguments_spec (payload : Option JsParseOutcome) :
    (payload = none → safeParseArguments payload = Json.obj [])
    ∧ (payload = some .throw → safeParseArguments payload = Json.obj [])
    ∧ (payload = some (.value .null) → safeParseArguments payload = Json.obj [])
    ∧ (∀ b, payload = some (.value (.bool b)) → safeParseArguments payload = Json.obj [])
    ∧ (∀ n, payload = some (.value (.num n)) → safeParseArguments payload = Json.obj [])
    ∧ (∀ s, payload = some (.value (.str s)) → safeParseArguments payload = Json.obj [])
    ∧ (∀ fields, payload = some (.value (.obj fields)) →
         safeParseArguments payload = Json.obj fields)
    ∧ (∀ elems, payload = some (.value (.arr elems)) →
         safeParseArguments payload = Json.arr elems) := by
  refine ⟨?_, ?_, ?_, ?_, ?_, ?_, ?_, ?_⟩
  · intro h; subst h; rfl
  · intro h; subst h; rfl
  · intro h; subst h; rfl
  · intro b h; subst h
    cases b <;> rfl
  · intro n h; subst h
    by_cases hn : n = 0
    · subst hn; rfl
    · simp [safeParseArguments, jsTruthy, jsTypeofObject, hn]
  · intro s h; subst h
    by_cases hs : s = ""
    · subst hs; rfl
    · simp [safeParseArguments, jsTruthy, jsTypeofObject, hs]
  · intro fields h; subst h; rfl
  · intro elems h; subst h; rfl

/-- C7 witness: the amended theorem applied to the concrete payloads
`'{}'`-defaulted absence, a throwing parse, the string value `"x"`, an
object and an array. -/
theorem C7_safeParseArguments_spec_witness :
    safeParseArguments none = Json.obj []
    ∧ safeParseArguments (some .throw) = Json.obj []
    ∧ safeParseArguments (some (.value (.str "x"))) = Json.obj []
    ∧ safeParseArguments (some (.value (.obj [("a", Json.num 2)])))
        = Json.obj [("a", Json.num 2)]
    ∧ safeParseArguments (some (.value (.arr [Json.bool true])))
        = Json.arr [Json.bool true] :=
  ⟨(C7_safeParseArguments_spec none).1 rfl,
   (C7_safeParseArguments_spec (some .throw)).2.1 rfl,
   (C7_safeParseArguments_spec (some (.value (.str "x")))).2.2.2.2.2.1 "x" rfl,
   (C7_safeParseArguments_spec
      (some (.value (.obj [("a", Json.num 2)])))).2.2.2.2.2.2.1 [("a", Json.num 2)] rfl,
   (C7_safeParseArguments_spec
      (some (.value (.arr [Json.bool true])))).2.2.2.2.2.2.2 [Json.bool true] rfl⟩

/-! # Provider model (`src/ai/types.ts`) -/

/-- `ProviderToolType`. -/
inductive ProviderToolType where
  | function
  | web_search
  | code_interpreter
deriving DecidableEq, Repr

/-- `ProviderToolDefinition`: an advertised tool; `hostHandled` is the
optional flag marking host execution. -/
structure ProviderToolDefinition where
  name : String
  type : ProviderToolType
  description : Option String
  hostHandled : Option Bool
deriving Repr

/-- `ProviderToolCall`: a function call requested by the backend. -/
structure ProviderToolCall where
  id : String
  name : String
  arguments : Json
deriving Repr

/-- `ProviderChatResponse`: the adapter's normalized reply. -/
structure ProviderChatResponse where
  text : Option String
  toolCalls : List ProviderToolCall
  outputEntries : List ConversationEntry
  thoughts : Option ThoughtData
deriving Repr

/-- `AiProvider` adapter data. The effectful operations (`chat`,
`summarizeMessages`, `generateImage`, `generateImageLocal`) are modelled by
oracles where the orchestrator calls them; the boolean capability flags
record which optional operations the adapter defines (the tool handlers of
`src/ai/tools.ts` branch on their presence). -/
structure AiProvider where
  id : String
  displayName : String
  personality : String
  defaultModel : String
  supportedTools : List ProviderToolDefinition
  hasSummarize : Bool
  hasGenerateImage : Bool
  hasGenerateImageLocal : Bool
deriving Repr

/-! # Provider registry (`src/ai/providerRegistry.ts`)

Registration happens lazily from configured credentials; the claims
quantify over ALL possible registry contents, so the registered map and
the default provider id are inputs (`Env`). -/

/-- The process-wide registry environment: the registered adapters (one per
configured credential) and the default provider id, plus the developer
prompt builder abstracted over the wall clock (see the file header). -/
structure Env where
  providers : List (String × AiProvider)
  defaultProviderId : String
  devPromptFor : AiProvider → String

/-- `getProvider`: a falsy (`undefined` or empty) id resolves to the
default provider; an unknown id falls back to the default provider
(`providers.get(providerId) ?? providers.get(defaultProviderId)`). -/
def getProvider (env : Env) (providerId : Option String) : Option AiProvider :=
  match providerId with
  | none => alGet env.providers env.defaultProviderId
  | some pid =>
      if pid = "" then alGet env.providers env.defaultProviderId
      else
        match alGet env.providers pid with
        | some p => some p
        | none => alGet env.providers env.defaultProviderId

/-- `getProviderForChannel`: the channel's pinned id, else the default id,
resolved through `getProvider`. -/
def getProviderForChannel (env : Env) (channelProviders : List (String × String))
    (channelId : String) : Option AiProvider :=
  let providerId := (alGet channelProviders channelId).getD env.defaultProviderId
  getProvider env (some providerId)

/-- The result record of `setProviderForChannel`. -/
structure SwitchResult where
  provider : Option AiProvider
  error : Option String
deriving Repr

/-- The registry's literal "not registered" error string. -/
def notRegisteredError (providerId : String) : String :=
  "Provider \"" ++ providerId ++ "\" is not registered."

/-- `setProviderForChannel`: fails without touching the pin map when the
id is not registered; otherwise pins the channel and returns the adapter. -/
def setProviderForChannel (env : Env) (channelProviders : List (String × String))
    (channelId : String) (providerId : String) :
    List (String × String) × SwitchResult :=
  match alGet env.providers providerId with
  | none => (channelProviders, { provider := none, error := some (notRegisteredError providerId) })
  | some p => (alSet channelProviders channelId providerId,
               { provider := some p, error := none })

/-- `getActiveProviderId`. -/
def getActiveProviderId (env : Env) (channelProviders : List (String × String))
    (channelId : String) : String :=
  (alGet channelProviders channelId).getD env.defaultProviderId

/-! # Claim C9 — fallback resolution of `getProviderForChannel` -/

/-- C9: whenever the channel's pinned provider id (or the default id
itself when the channel is unpinned) is not present in the registry map,
`getProviderForChannel` returns exactly the registry entry of the default
provider id; consequently it returns `none` only when the default provider
is itself unregistered — a pinned-but-unavailable provider silently falls
back to the default instead of surfacing as absence. -/
theorem C9_getProviderForChannel_fallback (env : Env)
    (channelProviders : List (String × String)) (channelId : String) :
    (alGet env.providers ((alGet channelProviders channelId).getD env.defaultProviderId) = none →
       getProviderForChannel env channelProviders channelId
         = alGet env.providers env.defaultProviderId)
    ∧ (getProviderForChannel env channelProviders channelId = none →
       alGet env.providers env.defaultProviderId = none) := by
  constructor
  · intro hmiss
    unfold getProviderForChannel getProvider
    by_cases hempty : (alGet channelProviders channelId).getD env.defaultProviderId = ""
    · simp [hempty]
    · simp [hempty, hmiss]
  · intro hnone
    unfold getProviderForChannel getProvider at hnone
    by_cases hempty : (alGet channelProviders channelId).getD env.defaultProviderId = ""
    · simpa [hempty] using hnone
    · simp only [hempty, if_neg hempty] at hnone
      revert hnone
      cases halg : alGet env.providers ((alGet channelProviders channelId).getD env.defaultProviderId) with
      | none => intro hnone; simpa using hnone
      | some p => intro hnone; simp at hnone

/-- Fixture registry for witnesses: OpenAI and Grok adapters as registered
by `providerRegistry.ts` when both credentials are present. -/
def sampleOpenAI : AiProvider :=
  { id := "openai", displayName := "OpenAI", personality := "direct",
    defaultModel := "gpt-5.1",
    supportedTools :=
      [{ name := "summarize_messages", type := .function,
         description := some "Summarize the messages in the channel within a given timeframe.",
         hostHandled := some true },
       { name := "generate_image", type := .function,
         description := some "Generate an image from a prompt.",
         hostHandled := some true },
       { name := "switch_provider", type := .function,
         description := some "Switch to a different AI provider without losing context.",
         hostHandled := some true },
       { name := "web_search", type := .web_search,
         description := none, hostHandled := none },
       { name := "code_interpreter", type := .code_interpreter,
         description := none, hostHandled := none }],
    hasSummarize := true, hasGenerateImage := true, hasGenerateImageLocal := false }

/-- Fixture Grok-like adapter (same catalog-derived host tools). -/
def sampleGrok : AiProvider :=
  { id := "grok", displayName := "Grok", personality := "irreverent",
    defaultModel := "grok-4",
    supportedTools :=
      [{ name := "summarize_messages", type := .function,
         description := some "Summarize the messages in the channel within a given timeframe.",
         hostHandled := some true },
       { name := "generate_image", type := .function,
         description := some "Generate an image from a prompt.",
         hostHandled := some true },
       { name := "switch_provider", type := .function,
         description := some "Switch to a different AI provider without losing context.",
         hostHandled := some true }],
    hasSummarize := true, hasGenerateImage := true, hasGenerateImageLocal := false }

/-- Fixture environment: both adapters registered, default `openai`. -/
def sampleEnv : Env :=
  { providers := [("openai", sampleOpenAI), ("grok", sampleGrok)],
    defaultProviderId := "openai",
    devPromptFor := fun p => "PROMPT:" ++ p.id }

/-- C9 witness: a channel pinned to the unregistered id `gemini` resolves
to the default (OpenAI) adapter. -/
theorem C9_getProviderForChannel_fallback_witness :
    getProviderForChannel sampleEnv [("chan", "gemini")] "chan" = some sampleOpenAI :=
  (C9_getProviderForChannel_fallback sampleEnv [("chan", "gemini")] "chan").1 rfl

/-! # Discord messages (as consumed by the core) -/

/-- An attachment: content type (possibly absent) and URL. -/
structure Attachment where
  contentType : Option String
  url : String
deriving DecidableEq, Repr

/-- The fields of a `discord.js` `Message` the core reads: author identity
and bot flag, display label (`member?.displayName || author.username`),
raw text, attachments, creation time and channel. -/
structure DiscordMsg where
  channelId : String
  authorId : String
  authorBot : Bool
  authorLabel : String
  content : String
  attachments : List Attachment
  createdAt : Int
deriving DecidableEq, Repr

/-! # OpenAI adapter: `summarizeMessages`
(`src/ai/providers/openaiProvider.ts`, lines 98-168) -/

/-- `7 * 24 * 60 * 60 * 1000` — one week in milliseconds. -/
def maxTimeframeMs : Int := 7 * 24 * 60 * 60 * 1000

/-- The literal validation / outcome strings of `summarizeMessages`. -/
def invalidDateMessage : String :=
  "Invalid date format. Please use ISO 8601 format (e.g., \"2025-10-03T18:00:00Z\")."

def maxTimeframeMessage : String := "The maximum timeframe for a summary is one week."

def orderingMessage : String := "The start time must be before the end time."

def noMessagesMessage : String := "I found no messages in that time range to summarize."

def unableToSummarizeMessage : String := "I was unable to generate a summary."

def summarizeErrorMessage : String := "An error occurred while trying to summarize the messages."

/-- Whether a message falls in the summary window and is not bot-authored
(the inner filter of the fetch loop). -/
def inWindowNonBot (startMs endMs : Int) (m : DiscordMsg) : Bool :=
  decide (startMs ≤ m.createdAt) && decide (m.createdAt ≤ endMs) && !m.authorBot

/-- The backward-paging fetch loop of `summarizeMessages`: fixed batches of
100 over the channel history (newest first), at most 50 batches (the
`fuel`), stopping on an empty batch or once a batch's oldest message
predates the window start; collects the window's non-bot messages. -/
def collectForSummary (startMs endMs : Int) : Nat → List DiscordMsg → List DiscordMsg
  | 0, _ => []
  | fuel + 1, remaining =>
      let chunk := remaining.take 100
      match chunk.getLast? with
      | none => []
      | some oldest =>
          let collected := chunk.filter (inWindowNonBot startMs endMs)
          if oldest.createdAt < startMs then collected
          else collected ++ collectForSummary startMs endMs fuel (remaining.drop 100)

/-- The environment of one `summarizeMessages` invocation: JavaScript
date parsing (`new Date(s).getTime()`, `none` = `NaN`), the channel's full
history newest-first (history paging is modelled as pure reads over it),
and the summarization backend call's outcome (`none` = the response held
no usable text). -/
structure SummarizeEnv where
  parseDate : String → Option Int
  channelMessages : List DiscordMsg
  backendSummary : Except Unit (Option String)

/-- `OpenAIProvider.summarizeMessages`: validation in source order —
unparsable dates, window longer than one week (strict), start after end —
then collection of the window's non-bot messages, the informational
no-messages result, and finally the backend summarization call whose
failure is caught and turned into the error string. -/
def OpenAIProvider.summarizeMessages (env : SummarizeEnv) (startTime endTime : String) :
    String :=
  match env.parseDate startTime, env.parseDate endTime with
  | some startMs, some endMs =>
      if endMs - startMs > maxTimeframeMs then maxTimeframeMessage
      else if startMs > endMs then orderingMessage
      else
        let messagesForSummary := collectForSummary startMs endMs 50 env.channelMessages
        if messagesForSummary.isEmpty then noMessagesMessage
        else
          match env.backendSummary with
          | .error _ => summarizeErrorMessage
          | .ok extracted =>
              match extracted with
              | some text => if text = "" then unableToSummarizeMessage else text
              | none => unableToSummarizeMessage
  | _, _ => invalidDateMessage

/-- Every message the fetch loop collects satisfies the window filter, so
an empty window-filter over the whole channel forces an empty collection. -/
theorem collectForSummary_nil_of_filter_nil (startMs endMs : Int) (fuel : Nat)
    (remaining : List DiscordMsg)
    (h : remaining.filter (inWindowNonBot startMs endMs) = []) :
    collectForSummary startMs endMs fuel remaining = [] := by
  induction fuel generalizing remaining with
  | zero => rfl
  | succ fuel ih =>
    have hsplit : remaining.filter (inWindowNonBot startMs endMs)
        = (remaining.take 100).filter (inWindowNonBot startMs endMs)
          ++ (remaining.drop 100).filter (inWindowNonBot startMs endMs) := by
      rw [← List.filter_append, List.take_append_drop]
    rw [hsplit] at h
    have htake : (remaining.take 100).filter (inWindowNonBot startMs endMs) = [] :=
      (List.append_eq_nil.mp h).1
    have hdrop : (remaining.drop 100).filter (inWindowNonBot startMs endMs) = [] :=
      (List.append_eq_nil.mp h).2
    unfold collectForSummary
    simp only [htake, ih (remaining.drop 100) hdrop]
    cases (remaining.take 100).getLast? with
    | none => rfl
    | some oldest => simp

/-- C2: `summarizeMessages` validates in source order and returns the first
matching message — (a) unparsable dates dominate everything; then for
parsed instants `ts`, `te`: (b) a window strictly longer than one week
(`te - ts > 7*24*60*60*1000` ms) yields the maximum-timeframe message, and
one millisecond past the boundary fails while the exact 7×24h boundary
passes on to the later checks; (c) a start strictly after the end yields
the ordering message — in particular an INVERTED range always yields the
ordering message and never the timeframe message (its negative width can
never exceed the cap), while `start = end` passes; (d) otherwise, when no
non-bot message of the channel falls in the window, the informational
no-messages result is returned. -/
theorem C2_summarizeMessages_validation_order (env : SummarizeEnv) (s e : String) :
    ((env.parseDate s = none ∨ env.parseDate e = none) →
       OpenAIProvider.summarizeMessages env s e = invalidDateMessage)
    ∧ (∀ ts te, env.parseDate s = some ts → env.parseDate e = some te →
        (te - ts > maxTimeframeMs →
           OpenAIProvider.summarizeMessages env s e = maxTimeframeMessage)
        ∧ (te - ts = maxTimeframeMs + 1 →
           OpenAIProvider.summarizeMessages env s e = maxTimeframeMessage)
        ∧ (ts > te → OpenAIProvider.summarizeMessages env s e = orderingMessage)
        ∧ (te - ts ≤ maxTimeframeMs → ts ≤ te →
             env.channelMessages.filter (inWindowNonBot ts te) = [] →
             OpenAIProvider.summarizeMessages env s e = noMessagesMessage)
        ∧ (te - ts = maxTimeframeMs → ts ≤ te →
             env.channelMessages.filter (inWindowNonBot ts te) = [] →
             OpenAIProvider.summarizeMessages env s e = noMessagesMessage)
        ∧ (ts = te →
             env.channelMessages.filter (inWindowNonBot ts te) = [] →
             OpenAIProvider.summarizeMessages env s e = noMessagesMessage)) := by
  have hmaxpos : (0 : Int) < maxTimeframeMs := by norm_num [maxTimeframeMs]
  constructor
  · intro h
    rcases h with h | h <;>
      cases hps : env.parseDate s <;> cases hpe : env.parseDate e <;>
        simp_all [OpenAIProvider.summarizeMessages]
  · intro ts te hs he
    have hnomsg : te - ts ≤ maxTimeframeMs → ts ≤ te →
        env.channelMessages.filter (inWindowNonBot ts te) = [] →
        OpenAIProvider.summarizeMessages env s e = noMessagesMessage := by
      intro hle hord hfilter
      unfold OpenAIProvider.summarizeMessages
      rw [hs, he]
      simp only [if_neg (not_lt.mpr hle), if_neg (not_lt.mpr hord),
        collectForSummary_nil_of_filter_nil ts te 50 env.channelMessages hfilter,
        List.isEmpty_nil, if_pos]
    refine ⟨?_, ?_, ?_, hnomsg, ?_, ?_⟩
    · intro hgt
      unfold OpenAIProvider.summarizeMessages
      rw [hs, he]
      simp only [if_pos hgt]
    · intro heq
      unfold OpenAIProvider.summarizeMessages
      rw [hs, he]
      have : te - ts > maxTimeframeMs := by omega
      simp only [if_pos this]
    · intro hinv
      unfold OpenAIProvider.summarizeMessages
      rw [hs, he]
      have h1 : ¬ (te - ts > maxTimeframeMs) := by omega
      simp only [if_neg h1, if_pos hinv]
    · intro heq hord hfilter
      exact hnomsg (by omega) hord hfilter
    · intro heq hfilter
      exact hnomsg (by omega) (by omega) hfilter

/-- Fixture environment for the C2 witness: a concrete date parser with
instants at 0, exactly one week, one week plus one millisecond and −5 ms,
over an empty channel. -/
def c2Env : SummarizeEnv :=
  { parseDate := fun x =>
      if x = "A" then some 0
      else if x = "B" then some maxTimeframeMs
      else if x = "C" then some (maxTimeframeMs + 1)
      else if x = "D" then some (-5)
      else none,
    channelMessages := [],
    backendSummary := .ok none }

/-- C2 witness: the validation theorem at concrete inputs — an unparsable
end time, the exact one-week boundary (passes on to the no-messages
result), one millisecond over (fails with the timeframe message), an
inverted range (ordering message, not the timeframe message) and an empty
`start = end` window. -/
theorem C2_summarizeMessages_validation_order_witness :
    OpenAIProvider.summarizeMessages c2Env "A" "nope" = invalidDateMessage
    ∧ OpenAIProvider.summarizeMessages c2Env "A" "B" = noMessagesMessage
    ∧ OpenAIProvider.summarizeMessages c2Env "A" "C" = maxTimeframeMessage
    ∧ OpenAIProvider.summarizeMessages c2Env "A" "D" = orderingMessage
    ∧ OpenAIProvider.summarizeMessages c2Env "A" "A" = noMessagesMessage :=
  ⟨(C2_summarizeMessages_validation_order c2Env "A" "nope").1 (Or.inr rfl),
   (((C2_summarizeMessages_validation_order c2Env "A" "B").2 0 maxTimeframeMs
      rfl rfl).2.2.2.2.1) rfl (by norm_num [maxTimeframeMs]) rfl,
   (((C2_summarizeMessages_validation_order c2Env "A" "C").2 0 (maxTimeframeMs + 1)
      rfl rfl).2.1) (by ring),
   (((C2_summarizeMessages_validation_order c2Env "A" "D").2 0 (-5)
      rfl rfl).2.2.1) (by norm_num),
   (((C2_summarizeMessages_validation_order c2Env "A" "A").2 0 0
      rfl rfl).2.2.2.2.2) rfl rfl⟩

/-! # Tool catalog (`src/ai/tools.ts`) and agent orchestrator
(`agentOrchestrator.ts`) -/

mutual
/-- JavaScript `String(v)` on a JSON value (used by the tool handlers on
raw argument values). -/
def jsToString : Json → String
  | .str s => s
  | .null => "null"
  | .bool true => "true"
  | .bool false => "false"
  | .num n => toString n
  | .arr elems => String.intercalate "," (jsToStringList elems)
  | .obj _ => "[object Object]"

/-- `String(v)` elementwise over an array. -/
def jsToStringList : List Json → List String
  | [] => []
  | v :: rest => jsToString v :: jsToStringList rest
end

/-- Property access `args.key` on an argument mapping. -/
def jsGet : Json → String → Option Json
  | .obj fields, key => alGet fields key
  | _, _ => none

/-- JavaScript `String.prototype.trim`, modelled structurally over the
character list (whitespace stripped from both ends). -/
def jsTrim (s : String) : String :=
  String.mk (((s.data.dropWhile Char.isWhitespace).reverse.dropWhile
    Char.isWhitespace).reverse)

/-- The mutable system state the orchestrator and registry share: the
per-channel provider pins and the conversation store. -/
structure SysState where
  channelProviders : List (String × String)
  store : ConversationStore

/-- `AgentOrchestrator.buildUserContentParts`: `"DisplayName: content"`
text part (label plus colon when the trimmed text is empty) followed by
one image part per image attachment with a non-empty URL. -/
def buildUserContentParts (msg : DiscordMsg) : List NormalizedContentPart :=
  let trimmed := msg.content.trim
  let baseText := if trimmed ≠ "" then msg.authorLabel ++ ": " ++ trimmed
                  else msg.authorLabel ++ ":"
  let parts := [NormalizedContentPart.text baseText]
    ++ msg.attachments.filterMap (fun a =>
        if (a.contentType.getD "").startsWith "image/" && a.url != "" then
          some (NormalizedContentPart.image a.url)
        else none)
  if parts.isEmpty then [NormalizedContentPart.text ""] else parts

/-- `AgentOrchestrator.buildInitialHistory`: a developer prompt entry, then
the fetched recent messages (delivered newest-first, reversed to
oldest-first), other bots excluded, the bot's own messages as assistant
text and user messages rendered like the inbound one. -/
def buildInitialHistory (devPrompt : String) (botId : String)
    (fetched : List DiscordMsg) : List ConversationEntry :=
  ConversationEntry.message .developer [.text devPrompt]
    :: (fetched.reverse.filter (fun m => !m.authorBot || m.authorId == botId)).map
        (fun m =>
          if m.authorId = botId then
            ConversationEntry.message .assistant [.text m.content]
          else
            ConversationEntry.message .user (buildUserContentParts m))

/-- `AgentOrchestrator.refreshDeveloperMessage`: replaces the leading
developer message entry in place, or prepends a fresh one when the list
does not start with a developer message. -/
def refreshDeveloperMessage (prompt : String) :
    List ConversationEntry → List ConversationEntry
  | ConversationEntry.message .developer _ :: rest =>
      ConversationEntry.message .developer [.text prompt] :: rest
  | entries => ConversationEntry.message .developer [.text prompt] :: entries

/-- `AgentOrchestrator.switchProviderForChannel` (the `switch_provider`
callback bound to a channel): repins through the registry; on success,
with live conversation state present, rewrites the leading developer
message and writes the state back with the new provider id, CLEARED
continuation data and a fresh timestamp; with no live state it falls back
to the store's own `switchProvider` (a no-op then). -/
def switchProviderForChannel (env : Env) (now : Int) (sys : SysState)
    (channelId : String) (providerId : String) (botPromptFor : AiProvider → String) :
    SysState × SwitchResult :=
  let r := setProviderForChannel env sys.channelProviders channelId providerId
  match r.2.provider with
  | some p =>
      let g := sys.store.get now channelId
      match g.2 with
      | some state =>
          let updatedEntries := refreshDeveloperMessage (botPromptFor p) state.entries
          let st2 := g.1.set channelId
            { providerId := p.id, entries := updatedEntries,
              thoughts := none, timestamp := now }
          ({ channelProviders := r.1, store := st2 }, r.2)
      | none =>
          ({ channelProviders := r.1, store := g.1.switchProvider now channelId p.id }, r.2)
  | none => ({ channelProviders := r.1, store := sys.store }, r.2)

/-- The names of the three catalog tools (`toolDefinitions` of
`src/ai/tools.ts`). -/
def catalogToolNames : List String :=
  ["summarize_messages", "generate_image", "switch_provider"]

/-- One catalog tool handler invocation (`src/ai/tools.ts`), given the
context the orchestrator exposes. The summarize and image handlers either
answer a fixed unsupported-capability string or delegate to a backend call
whose outcome (`backend`) is an oracle; the switch handler is pure: it
trims the supplied id, prompts for a non-blank id, and otherwise passes
the registry result (error string verbatim, or a confirmation naming the
new adapter's display name) back. `.error ()` models a handler throw. -/
def runHandler (env : Env) (now : Int) (provider : AiProvider) (channelId : String)
    (sys : SysState) (name : String) (args : Json) (backend : Except Unit String) :
    SysState × Except Unit String :=
  if name = "summarize_messages" then
    if provider.hasSummarize then (sys, backend)
    else (sys, .ok "This provider does not support summarizing messages.")
  else if name = "generate_image" then
    if provider.hasGenerateImageLocal then (sys, backend)
    else if provider.hasGenerateImage then (sys, backend)
    else (sys, .ok "This provider does not support image generation.")
  else
    let providerId := jsTrim (jsToString ((jsGet args "provider_id").getD (.str "")))
    if providerId = "" then (sys, .ok "Please provide a provider_id to switch to.")
    else
      let r := switchProviderForChannel env now sys channelId providerId env.devPromptFor
      match r.2.error with
      | some e => (r.1, .ok e)
      | none =>
          match r.2.provider with
          | some p => (r.1, .ok ("Switched to provider \"" ++ p.displayName
                        ++ "\" for this channel while keeping the existing context."))
          | none => (r.1, .ok "Unable to switch providers right now.")

/-- The synthesized tool_result text for a call with no registered handler. -/
def toolUnsupportedMessage (name : String) : String :=
  "The tool \"" ++ name ++ "\" is not supported by this bot."

/-- The tool_result text for a handler that threw. -/
def toolFailedMessage (name : String) : String :=
  "The tool \"" ++ name ++ "\" failed to run."

/-- Processing of ONE host-handled tool call inside the orchestrator loop
(`handleMention` lines 85-125): missing catalog tool → synthesized
declining tool_result; handler throw → caught per call and converted into
a failed-tool tool_result; otherwise the handler output becomes the
tool_result content. Exactly one tool_result per call, always. -/
def processCall (env : Env) (now : Int) (provider : AiProvider) (channelId : String)
    (sys : SysState) (call : ProviderToolCall) (backend : Except Unit String) :
    SysState × ConversationEntry :=
  if catalogToolNames.contains call.name then
    let r := runHandler env now provider channelId sys call.name call.arguments backend
    match r.2 with
    | .ok output => (r.1, .tool_result call.id call.name output)
    | .error _ => (r.1, .tool_result call.id call.name (toolFailedMessage call.name))
  else
    (sys, .tool_result call.id call.name (toolUnsupportedMessage call.name))

/-- The sequential tool-execution loop: calls are processed in the order
returned; `backend idx` is the oracle outcome consumed by the `idx`-th
handler invocation. -/
def execToolCalls (env : Env) (now : Int) (provider : AiProvider) (channelId : String)
    (backend : Nat → Except Unit String) (sys : SysState) (idx : Nat) :
    List ProviderToolCall → SysState × List ConversationEntry
  | [] => (sys, [])
  | call :: rest =>
      let r := processCall env now provider channelId sys call (backend idx)
      let r2 := execToolCalls env now provider channelId backend r.1 (idx + 1) rest
      (r2.1, r.2 :: r2.2)

/-- `splitMessage` of `src/utils.ts`: short texts unchanged, long texts
split at line boundaries into chunks of at most `maxLength`. -/
def splitMessage (text : String) (maxLength : Nat) : List String :=
  if text.length ≤ maxLength then [text]
  else
    let lines := text.splitOn "\n"
    let step := fun (acc : List String × String) (line : String) =>
      let flushed :=
        if acc.2.length + line.length + 1 > maxLength then (acc.1 ++ [acc.2], "")
        else acc
      (flushed.1, flushed.2 ++ (if flushed.2.length > 0 then "\n" else "") ++ line)
    let final := lines.foldl step ([], "")
    final.1 ++ [final.2]

/-- Whether a provider chat call was requested with tool-choice `auto` or
`none`. -/
inductive ToolChoice where
  | auto
  | choiceNone
deriving DecidableEq, Repr

/-- Observable events of one turn, in chronological order: provider chat
calls issued (with the tool choice and the continuation data passed),
host-handled tool-call processings, and replies sent. -/
inductive TurnEvent where
  | chatCall (providerId : String) (toolChoice : ToolChoice) (thoughts : Option ThoughtData)
  | toolExec (callId : String) (name : String)
  | replied (content : String)
deriving DecidableEq, Repr

/-- The fixed texts `handleMention` replies with outside `sendReply`. -/
def noProviderMessage : String := "No AI provider is configured for this bot."

def initFailedMessage : String := "Failed to initialize the conversation state."

def apologyMessage : String := "Sorry, I encountered an error while processing your request."

def fillerReplyMessage : String :=
  "I\'ve processed the information, but I don\'t have anything further to add."

/-- `AgentOrchestrator.sendReply`: a missing (or empty, falsy) text yields
the fixed filler reply; otherwise the text is split into chunks, each
replied in order. -/
def sendReplyEvents (content : Option String) : List TurnEvent :=
  match content with
  | none => [.replied fillerReplyMessage]
  | some t =>
      if t = "" then [.replied fillerReplyMessage]
      else (splitMessage t 2000).map .replied

/-- The host-handled filter of `handleMention` (lines 78-81): keep a call
when the active provider advertises a tool of that name whose
`hostHandled` flag defaults to false. -/
def hostHandledCalls (providerTools : List ProviderToolDefinition)
    (response : ProviderChatResponse) : List ProviderToolCall :=
  response.toolCalls.filter (fun call =>
    (((providerTools.find? (fun tool => tool.name = call.name)).bind
        ProviderToolDefinition.hostHandled).getD false))

/-- The oracle outcomes of one turn's network-bound calls: the first chat
call, the per-index backend results consumed by tool handlers, the
follow-up chat call, and the recent messages fetched when fresh state is
built. -/
structure TurnOracle where
  firstChat : Except Unit ProviderChatResponse
  backend : Nat → Except Unit String
  followUpChat : Except Unit ProviderChatResponse
  fetchedHistory : List DiscordMsg

/-- `handleMention` lines 28-61: prune, read state, and either build fresh
state from fetched history, rewrite the leading developer entry after a
pinned-provider change (via `switchProvider`, a full `set` and a re-read),
or keep the live matching state. -/
def resolveState (env : Env) (now : Int) (provider : AiProvider)
    (fetched : List DiscordMsg) (botId : String) (cs : ConversationStore)
    (channelId : String) : ConversationStore × Option ConversationState :=
  let cs0 := cs.pruneExpired now
  let g := cs0.get now channelId
  match g.2 with
  | none =>
      let initialEntries := buildInitialHistory (env.devPromptFor provider) botId fetched
      let st : ConversationState :=
        { providerId := provider.id, entries := initialEntries,
          timestamp := now, thoughts := none }
      (g.1.set channelId st, some st)
  | some state =>
      if state.providerId ≠ provider.id then
        let cs2 := g.1.switchProvider now channelId provider.id
        let g2 := cs2.get now channelId
        match g2.2 with
        | some st2 =>
            let updatedEntries :=
              refreshDeveloperMessage (env.devPromptFor provider) st2.entries
            let cs3 := g2.1.set channelId
              { providerId := provider.id, entries := updatedEntries,
                thoughts := none, timestamp := now }
            cs3.get now channelId
        | none => (g2.1, none)
      else (g.1, some state)

/-- The `try` block of `handleMention` (lines 68-171): first chat call with
tool-choice auto; host-handled calls executed sequentially; provider
re-resolution (and developer-entry rewrite on a change) before the
follow-up call with tool-choice none; reply; single atomic write-back.
A chat-call throw falls to the catch: generic apology, no write-back. -/
def runTurn (env : Env) (now : Int) (oracle : TurnOracle) (msg : DiscordMsg)
    (provider : AiProvider) (state : ConversationState) (sys : SysState) :
    SysState × List TurnEvent :=
  let channelId := msg.channelId
  let providerTools := provider.supportedTools
  let userEntry : ConversationEntry := .message .user (buildUserContentParts msg)
  let working0 := state.entries ++ [userEntry]
  let ev1 : TurnEvent := .chatCall provider.id .auto state.thoughts
  match oracle.firstChat with
  | .error _ => (sys, [ev1, .replied apologyMessage])
  | .ok firstResponse =>
      let working1 := working0 ++ firstResponse.outputEntries
      let hostCalls := hostHandledCalls providerTools firstResponse
      if hostCalls.isEmpty then
        let st' : ConversationState :=
          { providerId := provider.id, entries := working1, timestamp := now,
            thoughts := firstResponse.thoughts <|> state.thoughts }
        ({ channelProviders := sys.channelProviders,
           store := sys.store.set channelId st' },
         [ev1] ++ sendReplyEvents firstResponse.text)
      else
        let toolEvs := hostCalls.map (fun c => TurnEvent.toolExec c.id c.name)
        let r := execToolCalls env now provider channelId oracle.backend sys 0 hostCalls
        let working2 := working1 ++ r.2
        let refreshed := getProviderForChannel env r.1.channelProviders channelId
        let afterRefresh :=
          match refreshed with
          | some rp =>
              if rp.id ≠ provider.id then
                (rp, refreshDeveloperMessage (env.devPromptFor rp) working2)
              else (rp, working2)
          | none => (provider, working2)
        let activeProvider2 := afterRefresh.1
        let working3 := afterRefresh.2
        let ev2 : TurnEvent :=
          .chatCall activeProvider2.id .choiceNone
            (firstResponse.thoughts <|> state.thoughts)
        match oracle.followUpChat with
        | .error _ => (r.1, [ev1] ++ toolEvs ++ [ev2, .replied apologyMessage])
        | .ok followUp =>
            let working4 := working3 ++ followUp.outputEntries
            let st' : ConversationState :=
              { providerId := activeProvider2.id, entries := working4, timestamp := now,
                thoughts := followUp.thoughts <|> firstResponse.thoughts <|> state.thoughts }
            ({ channelProviders := r.1.channelProviders,
               store := r.1.store.set channelId st' },
             [ev1] ++ toolEvs ++ [ev2] ++ sendReplyEvents followUp.text)

/-- `AgentOrchestrator.handleMention`: provider resolution, state
resolution, then the `try` block (`runTurn`). -/
def handleMention (env : Env) (now : Int) (oracle : TurnOracle) (botId : String)
    (msg : DiscordMsg) (sys : SysState) : SysState × List TurnEvent :=
  match getProviderForChannel env sys.channelProviders msg.channelId with
  | none => (sys, [.replied noProviderMessage])
  | some provider =>
      let r := resolveState env now provider oracle.fetchedHistory botId
                 sys.store msg.channelId
      match r.2 with
      | none => ({ sys with store := r.1 }, [.replied initFailedMessage])
      | some state =>
          runTurn env now oracle msg provider state { sys with store := r.1 }

/-! # Claim C3 — at most two provider calls per turn -/

/-- The tool choices of the provider chat calls a turn issued, in order. -/
def chatCallChoices : List TurnEvent → List ToolChoice
  | [] => []
  | .chatCall _ c _ :: rest => c :: chatCallChoices rest
  | _ :: rest => chatCallChoices rest

/-- Recognizes a host tool-call processing event. -/
def isToolExecEvent : TurnEvent → Bool
  | .toolExec _ _ => true
  | _ => false

/-- No host tool call is processed anywhere after a tool-choice-none chat
call in the event list. -/
def noToolExecAfterFollowUp : List TurnEvent → Bool
  | [] => true
  | .chatCall _ .choiceNone _ :: rest => rest.all (fun e => !isToolExecEvent e)
  | _ :: rest => noToolExecAfterFollowUp rest

theorem chatCallChoices_toolExecs_append (calls : List ProviderToolCall)
    (l : List TurnEvent) :
    chatCallChoices ((calls.map fun c => TurnEvent.toolExec c.id c.name) ++ l)
      = chatCallChoices l := by
  induction calls with
  | nil => rfl
  | cons c rest ih => simpa [chatCallChoices] using ih

theorem chatCallChoices_sendReply (t : Option String) :
    chatCallChoices (sendReplyEvents t) = [] := by
  cases t with
  | none => rfl
  | some s =>
    unfold sendReplyEvents
    by_cases h : s = ""
    · simp [h, chatCallChoices]
    · simp only [h, if_neg h]
      generalize splitMessage s 2000 = chunks
      induction chunks with
      | nil => rfl
      | cons a rest ih => simpa [chatCallChoices] using ih

theorem noToolExecAfterFollowUp_toolExecs_append (calls : List ProviderToolCall)
    (l : List TurnEvent) :
    noToolExecAfterFollowUp ((calls.map fun c => TurnEvent.toolExec c.id c.name) ++ l)
      = noToolExecAfterFollowUp l := by
  induction calls with
  | nil => rfl
  | cons c rest ih => simpa [noToolExecAfterFollowUp] using ih

theorem sendReplyEvents_all_not_toolExec (t : Option String) :
    (sendReplyEvents t).all (fun e => !isToolExecEvent e) = true := by
  cases t with
  | none => rfl
  | some s =>
    unfold sendReplyEvents
    by_cases h : s = ""
    · simp [h, isToolExecEvent]
    · simp only [h, if_neg h]
      generalize splitMessage s 2000 = chunks
      induction chunks with
      | nil => rfl
      | cons a rest _ => simp [isToolExecEvent]

theorem noToolExecAfterFollowUp_sendReply (t : Option String) :
    noToolExecAfterFollowUp (sendReplyEvents t) = true := by
  cases t with
  | none => rfl
  | some s =>
    unfold sendReplyEvents
    by_cases h : s = ""
    · simp [h, noToolExecAfterFollowUp]
    · simp only [h, if_neg h]
      generalize splitMessage s 2000 = chunks
      induction chunks with
      | nil => rfl
      | cons a rest ih => simpa [noToolExecAfterFollowUp] using ih

/-- Shape of the event list of a turn whose first chat call succeeded and
returned host-handled tool calls: one auto chat call, the tool processings
in order, one tool-choice-none chat call, then either the apology (when
the follow-up threw) or the follow-up's reply events. -/
theorem runTurn_two_call_shape (env : Env) (now : Int) (oracle : TurnOracle)
    (msg : DiscordMsg) (provider : AiProvider) (state : ConversationState)
    (sys : SysState) (firstResponse : ProviderChatResponse)
    (hfc : oracle.firstChat = Except.ok firstResponse)
    (hhc : (hostHandledCalls provider.supportedTools firstResponse).isEmpty = false) :
    ∃ pid2 tail,
      (runTurn env now oracle msg provider state sys).2
        = TurnEvent.chatCall provider.id .auto state.thoughts
            :: (((hostHandledCalls provider.supportedTools firstResponse).map
                  (fun c => TurnEvent.toolExec c.id c.name))
                ++ TurnEvent.chatCall pid2 .choiceNone
                     (firstResponse.thoughts <|> state.thoughts) :: tail)
      ∧ (tail = [TurnEvent.replied apologyMessage]
         ∨ ∃ fu, oracle.followUpChat = Except.ok fu ∧ tail = sendReplyEvents fu.text)
      ∧ (∀ fu, oracle.followUpChat = Except.ok fu → tail = sendReplyEvents fu.text) := by
  unfold runTurn
  simp only [hfc, hhc, Bool.false_eq_true, if_false]
  cases hr : getProviderForChannel env
      (execToolCalls env now provider msg.channelId oracle.backend sys 0
        (hostHandledCalls provider.supportedTools firstResponse)).1.channelProviders
      msg.channelId with
  | none =>
    cases hfu : oracle.followUpChat with
    | error e =>
      exact ⟨provider.id, [TurnEvent.replied apologyMessage], by simp, Or.inl rfl,
        fun fu hfu' => by simp at hfu'⟩
    | ok fu =>
      exact ⟨provider.id, sendReplyEvents fu.text, by simp, Or.inr ⟨fu, rfl, rfl⟩,
        fun fu' hfu' => by injection hfu' with h; rw [h]⟩
  | some rp =>
    by_cases hid : rp.id ≠ provider.id
    · cases hfu : oracle.followUpChat with
      | error e =>
        exact ⟨rp.id, [TurnEvent.replied apologyMessage], by simp [hid], Or.inl rfl,
          fun fu hfu' => by simp at hfu'⟩
      | ok fu =>
        exact ⟨rp.id, sendReplyEvents fu.text, by simp [hid], Or.inr ⟨fu, rfl, rfl⟩,
          fun fu' hfu' => by injection hfu' with h; rw [h]⟩
    · cases hfu : oracle.followUpChat with
      | error e =>
        exact ⟨rp.id, [TurnEvent.replied apologyMessage], by simp [hid], Or.inl rfl,
          fun fu hfu' => by simp at hfu'⟩
      | ok fu =>
        exact ⟨rp.id, sendReplyEvents fu.text, by simp [hid], Or.inr ⟨fu, rfl, rfl⟩,
          fun fu' hfu' => by injection hfu' with h; rw [h]⟩

/-- C3: every turn issues at most two provider chat calls — the first with
tool-choice auto and, only when the first response contained host-handled
tool calls, exactly one follow-up with tool-choice none; no host tool call
is ever processed after the follow-up call, so the follow-up's tool calls
are never executed and at most one round of host tool execution occurs per
turn. -/
theorem C3_at_most_two_provider_calls (env : Env) (now : Int) (oracle : TurnOracle)
    (botId : String) (msg : DiscordMsg) (sys : SysState) :
    (chatCallChoices (handleMention env now oracle botId msg sys).2 = []
     ∨ chatCallChoices (handleMention env now oracle botId msg sys).2 = [ToolChoice.auto]
     ∨ chatCallChoices (handleMention env now oracle botId msg sys).2
         = [ToolChoice.auto, ToolChoice.choiceNone])
    ∧ noToolExecAfterFollowUp (handleMention env now oracle botId msg sys).2 = true
    ∧ (chatCallChoices (handleMention env now oracle botId msg sys).2
         = [ToolChoice.auto, ToolChoice.choiceNone] →
       ∃ p r, getProviderForChannel env sys.channelProviders msg.channelId = some p
         ∧ oracle.firstChat = Except.ok r
         ∧ hostHandledCalls p.supportedTools r ≠ []) := by
  cases hp : getProviderForChannel env sys.channelProviders msg.channelId with
  | none =>
    have hev : (handleMention env now oracle botId msg sys).2
        = [.replied noProviderMessage] := by
      unfold handleMention
      rw [hp]
    rw [hev]
    refine ⟨Or.inl rfl, rfl, ?_⟩
    intro h
    simp [chatCallChoices] at h
  | some provider =>
    cases hst : (resolveState env now provider oracle.fetchedHistory botId
        sys.store msg.channelId).2 with
    | none =>
      have hev : (handleMention env now oracle botId msg sys).2
          = [.replied initFailedMessage] := by
        unfold handleMention
        rw [hp]
        simp only [hst]
      rw [hev]
      refine ⟨Or.inl rfl, rfl, ?_⟩
      intro h
      simp [chatCallChoices] at h
    | some state =>
      have hturn : handleMention env now oracle botId msg sys
          = runTurn env now oracle msg provider state
              { channelProviders := sys.channelProviders,
                store := (resolveState env now provider oracle.fetchedHistory botId
                  sys.store msg.channelId).1 } := by
        unfold handleMention
        rw [hp]
        simp only [hst]
      rw [hturn]
      cases hfc : oracle.firstChat with
      | error e =>
        have hev : (runTurn env now oracle msg provider state
            { channelProviders := sys.channelProviders,
              store := (resolveState env now provider oracle.fetchedHistory botId
                sys.store msg.channelId).1 }).2
            = [.chatCall provider.id .auto state.thoughts, .replied apologyMessage] := by
          unfold runTurn
          simp only [hfc]
        rw [hev]
        refine ⟨Or.inr (Or.inl rfl), rfl, ?_⟩
        intro h
        simp [chatCallChoices] at h
      | ok firstResponse =>
        by_cases hhc : (hostHandledCalls provider.supportedTools firstResponse).isEmpty = true
        · have hev : (runTurn env now oracle msg provider state
              { channelProviders := sys.channelProviders,
                store := (resolveState env now provider oracle.fetchedHistory botId
                  sys.store msg.channelId).1 }).2
              = TurnEvent.chatCall provider.id .auto state.thoughts
                  :: sendReplyEvents firstResponse.text := by
            unfold runTurn
            simp only [hfc, hhc, if_true, List.singleton_append]
          rw [hev]
          refine ⟨Or.inr (Or.inl ?_), ?_, ?_⟩
          · show ToolChoice.auto :: chatCallChoices (sendReplyEvents firstResponse.text)
              = [ToolChoice.auto]
            rw [chatCallChoices_sendReply]
          · show noToolExecAfterFollowUp (sendReplyEvents firstResponse.text) = true
            exact noToolExecAfterFollowUp_sendReply firstResponse.text
          · intro h
            rw [show chatCallChoices
                  (TurnEvent.chatCall provider.id .auto state.thoughts
                    :: sendReplyEvents firstResponse.text)
                = ToolChoice.auto :: chatCallChoices (sendReplyEvents firstResponse.text)
                from rfl, chatCallChoices_sendReply] at h
            simp at h
        · rw [Bool.not_eq_true] at hhc
          have hne : hostHandledCalls provider.supportedTools firstResponse ≠ [] := by
            intro hnil
            rw [hnil] at hhc
            simp at hhc
          obtain ⟨pid2, tail, hev, htail, _⟩ := runTurn_two_call_shape env now oracle msg
            provider state
            { channelProviders := sys.channelProviders,
              store := (resolveState env now provider oracle.fetchedHistory botId
                sys.store msg.channelId).1 } firstResponse hfc hhc
          rw [hev]
          have htail_choices : chatCallChoices tail = [] := by
            rcases htail with h | ⟨fu, _, h⟩
            · rw [h]; rfl
            · rw [h]; exact chatCallChoices_sendReply fu.text
          have htail_all : tail.all (fun e => !isToolExecEvent e) = true := by
            rcases htail with h | ⟨fu, _, h⟩
            · rw [h]; rfl
            · rw [h]; exact sendReplyEvents_all_not_toolExec fu.text
          refine ⟨Or.inr (Or.inr ?_), ?_, fun _ => ⟨provider, firstResponse, rfl, rfl, hne⟩⟩
          · show ToolChoice.auto :: chatCallChoices (_ ++ _) = _
            rw [chatCallChoices_toolExecs_append]
            show ToolChoice.auto :: ToolChoice.choiceNone :: chatCallChoices tail = _
            rw [htail_choices]
          · show noToolExecAfterFollowUp (_ ++ _) = true
            rw [noToolExecAfterFollowUp_toolExecs_append]
            show tail.all (fun e => !isToolExecEvent e) = true
            exact htail_all

/-! Shared concrete-turn fixtures for witnesses and counterexamples. -/

/-- A plain inbound user mention on channel `chan`. -/
def turnMsg : DiscordMsg :=
  { channelId := "chan", authorId := "u1", authorBot := false,
    authorLabel := "alice", content := "hi", attachments := [], createdAt := 500 }

/-- Live conversation state pinned to `grok`, holding opaque continuation
data `["G0"]`. -/
def turnState : ConversationState :=
  { providerId := "grok",
    entries := [ConversationEntry.message .developer [.text "PROMPT:grok"]],
    timestamp := 1000, thoughts := some ["G0"] }

/-- System state: channel pinned to `grok`, store holding `turnState`. -/
def turnSys : SysState :=
  { channelProviders := [("chan", "grok")],
    store := { timeoutMs := CONVERSATION_TIMEOUT, store := [("chan", turnState)] } }

/-- A first response that requests `switch_provider` to `openai` and
carries continuation data `["G1"]` from the still-active Grok provider. -/
def switchCallResponse : ProviderChatResponse :=
  { text := none,
    toolCalls := [{ id := "call1", name := "switch_provider",
                    arguments := .obj [("provider_id", .str "openai")] }],
    outputEntries := [ConversationEntry.tool_call "call1" "switch_provider"
                        (.obj [("provider_id", .str "openai")])],
    thoughts := some ["G1"] }

/-- A follow-up response carrying no continuation data. -/
def followUpResponse : ProviderChatResponse :=
  { text := some "done", toolCalls := [],
    outputEntries := [ConversationEntry.message .assistant [.text "done"]],
    thoughts := none }

/-- Oracle for the mid-turn-switch scenario. -/
def turnOracle : TurnOracle :=
  { firstChat := .ok switchCallResponse,
    backend := fun _ => .ok "unused",
    followUpChat := .ok followUpResponse,
    fetchedHistory := [] }


/-- C3 witness: the mid-turn-switch fixture issues exactly the two calls
(auto then none), and the theorem's host-handled-calls condition holds. -/
theorem C3_at_most_two_provider_calls_witness :
    chatCallChoices (handleMention sampleEnv 1000 turnOracle "bot" turnMsg turnSys).2
      = [ToolChoice.auto, ToolChoice.choiceNone]
    ∧ ∃ p r,
        getProviderForChannel sampleEnv turnSys.channelProviders turnMsg.channelId = some p
        ∧ turnOracle.firstChat = Except.ok r
        ∧ hostHandledCalls p.supportedTools r ≠ [] := by
  have hch : chatCallChoices (handleMention sampleEnv 1000 turnOracle "bot" turnMsg turnSys).2
      = [ToolChoice.auto, ToolChoice.choiceNone] := by rfl
  exact ⟨hch,
    (C3_at_most_two_provider_calls sampleEnv 1000 turnOracle "bot" turnMsg turnSys).2.2 hch⟩

/-! # Claim C1 — failure semantics of a turn -/

theorem alGet_filter_of_keep {α : Type} (l : List (String × α)) (key : String) (v : α)
    (p : String × α → Bool)
    (h : alGet l key = some v) (hp : p (key, v) = true) :
    alGet (l.filter p) key = some v := by
  induction l with
  | nil => simp [alGet] at h
  | cons q rest ih =>
    obtain ⟨k, w⟩ := q
    by_cases hk : k = key
    · subst hk
      rw [alGet, if_pos rfl] at h
      injection h with h
      subst h
      rw [List.filter_cons, if_pos hp, alGet, if_pos rfl]
    · rw [alGet, if_neg hk] at h
      rw [List.filter_cons]
      by_cases hq : p (k, w) = true
      · rw [if_pos hq, alGet, if_neg hk]
        exact ih h
      · rw [if_neg hq]
        exact ih h

/-- A live (unexpired) entry survives `pruneExpired`. -/
theorem pruneExpired_get_live (cs : ConversationStore) (now : Int) (ch : String)
    (st : ConversationState)
    (hst : alGet cs.store ch = some st)
    (hfresh : now - st.timestamp ≤ cs.timeoutMs) :
    alGet (cs.pruneExpired now).store ch = some st := by
  unfold ConversationStore.pruneExpired
  exact alGet_filter_of_keep cs.store ch st _ hst (by simpa using hfresh)

/-- With live state pinned to the resolved provider, `resolveState` only
prunes: it returns the state unchanged, with no write for this channel. -/
theorem resolveState_live_matching (env : Env) (now : Int) (provider : AiProvider)
    (fetched : List DiscordMsg) (botId : String) (cs : ConversationStore) (ch : String)
    (st : ConversationState)
    (hst : alGet cs.store ch = some st)
    (hfresh : now - st.timestamp ≤ cs.timeoutMs)
    (hpid : st.providerId = provider.id) :
    resolveState env now provider fetched botId cs ch = (cs.pruneExpired now, some st) := by
  have h1 : alGet (cs.pruneExpired now).store ch = some st :=
    pruneExpired_get_live cs now ch st hst hfresh
  have h2 : (cs.pruneExpired now).get now ch = (cs.pruneExpired now, some st) := by
    unfold ConversationStore.get
    rw [h1]
    have hnot : ¬ (now - st.timestamp > (cs.pruneExpired now).timeoutMs) :=
      not_lt.mpr hfresh
    simp only [if_neg hnot]
  unfold resolveState
  simp only [h2]
  rw [if_neg (fun hne => hne hpid)]

/-- A tool call whose name is not `switch_provider` never mutates the
system state (pins or store), whatever its outcome. -/
theorem processCall_fst_no_switch (env : Env) (now : Int) (provider : AiProvider)
    (ch : String) (sys : SysState) (call : ProviderToolCall)
    (backend : Except Unit String)
    (h : call.name ≠ "switch_provider") :
    (processCall env now provider ch sys call backend).1 = sys := by
  unfold processCall runHandler
  by_cases h1 : call.name = "summarize_messages"
  · simp only [h1]
    cases provider.hasSummarize <;> cases backend <;> rfl
  · by_cases h2 : call.name = "generate_image"
    · simp only [h2]
      cases provider.hasGenerateImageLocal <;> cases provider.hasGenerateImage <;>
        cases backend <;> rfl
    · have hc : catalogToolNames.contains call.name = false := by
        rw [Bool.eq_false_iff]
        intro hcontains
        have hmem : call.name ∈ catalogToolNames := by
          simpa using hcontains
        simp only [catalogToolNames, List.mem_cons, List.not_mem_nil, or_false] at hmem
        rcases hmem with h' | h' | h'
        · exact h1 h'
        · exact h2 h'
        · exact h h'
      simp only [hc, Bool.false_eq_true, if_false]

/-- The tool loop mutates nothing when no `switch_provider` call is among
the host-handled calls. -/
theorem execToolCalls_fst_no_switch (env : Env) (now : Int) (provider : AiProvider)
    (ch : String) (backend : Nat → Except Unit String) :
    ∀ (calls : List ProviderToolCall) (sys : SysState) (idx : Nat),
    (∀ c ∈ calls, c.name ≠ "switch_provider") →
    (execToolCalls env now provider ch backend sys idx calls).1 = sys := by
  intro calls
  induction calls with
  | nil =>
    intro sys idx _
    rfl
  | cons c rest ih =>
    intro sys idx h
    unfold execToolCalls
    have h1 : (processCall env now provider ch sys c (backend idx)).1 = sys :=
      processCall_fst_no_switch env now provider ch sys c (backend idx)
        (h c (List.mem_cons_self c rest))
    simp only [h1]
    exact ih sys (idx + 1) (fun c' hc' => h c' (List.mem_cons_of_mem _ hc'))

theorem getLast?_cons_append_pair {α : Type} (a : α) (l : List α) (b c : α) :
    (a :: (l ++ [b, c])).getLast? = some c := by
  rw [show a :: (l ++ [b, c]) = (a :: (l ++ [b])) ++ [c] by simp]
  exact List.getLast?_concat _

/-- C1 (amended): an exception escaping the provider-call/tool-execution
phase is answered with the single generic apology and the working entry
list is never written back. When the pre-turn state exists unexpired AND
its pinned provider id matches the resolved provider (and, for a failure
of the follow-up call, no `switch_provider` tool call executed earlier in
the turn), a subsequent read returns exactly the pre-turn state. (When the
pinned id differs from the resolved provider, the turn's INIT phase has
already rewritten the persisted state — leading developer entry refreshed,
continuation data cleared, timestamp renewed — before the failure, so the
pre-turn state is NOT what a subsequent read returns; see the
counterexample.) -/
theorem C1_failed_turn_preserves_state (env : Env) (now : Int) (oracle : TurnOracle)
    (botId : String) (msg : DiscordMsg) (sys : SysState) (p : AiProvider)
    (st : ConversationState)
    (hp : getProviderForChannel env sys.channelProviders msg.channelId = some p)
    (hst : alGet sys.store.store msg.channelId = some st)
    (hfresh : now - st.timestamp ≤ sys.store.timeoutMs)
    (hpid : st.providerId = p.id) :
    (oracle.firstChat = Except.error () →
       handleMention env now oracle botId msg sys
         = ({ channelProviders := sys.channelProviders,
              store := sys.store.pruneExpired now },
            [TurnEvent.chatCall p.id .auto st.thoughts, TurnEvent.replied apologyMessage])
       ∧ alGet (handleMention env now oracle botId msg sys).1.store.store msg.channelId
           = some st)
    ∧ (∀ r, oracle.firstChat = Except.ok r →
        (hostHandledCalls p.supportedTools r).isEmpty = false →
        (∀ c ∈ hostHandledCalls p.supportedTools r, c.name ≠ "switch_provider") →
        oracle.followUpChat = Except.error () →
        (handleMention env now oracle botId msg sys).1
          = { channelProviders := sys.channelProviders,
              store := sys.store.pruneExpired now }
        ∧ alGet (handleMention env now oracle botId msg sys).1.store.store msg.channelId
            = some st
        ∧ ((handleMention env now oracle botId msg sys).2).getLast?
            = some (TurnEvent.replied apologyMessage)) := by
  have hres : resolveState env now p oracle.fetchedHistory botId sys.store msg.channelId
      = (sys.store.pruneExpired now, some st) :=
    resolveState_live_matching env now p oracle.fetchedHistory botId sys.store
      msg.channelId st hst hfresh hpid
  have hturn : handleMention env now oracle botId msg sys
      = runTurn env now oracle msg p st
          { channelProviders := sys.channelProviders,
            store := sys.store.pruneExpired now } := by
    unfold handleMention
    rw [hp]
    simp only [hres]
  have hlive : alGet (sys.store.pruneExpired now).store msg.channelId = some st :=
    pruneExpired_get_live sys.store now msg.channelId st hst hfresh
  constructor
  · intro hfc
    have hev : handleMention env now oracle botId msg sys
        = ({ channelProviders := sys.channelProviders,
             store := sys.store.pruneExpired now },
           [TurnEvent.chatCall p.id .auto st.thoughts, TurnEvent.replied apologyMessage]) := by
      rw [hturn]
      unfold runTurn
      simp only [hfc]
    refine ⟨hev, ?_⟩
    rw [hev]
    exact hlive
  · intro r hfc hhc hnos hfu
    have hexec : (execToolCalls env now p msg.channelId oracle.backend
        { channelProviders := sys.channelProviders,
          store := sys.store.pruneExpired now } 0
        (hostHandledCalls p.supportedTools r)).1
        = { channelProviders := sys.channelProviders,
            store := sys.store.pruneExpired now } :=
      execToolCalls_fst_no_switch env now p msg.channelId oracle.backend
        (hostHandledCalls p.supportedTools r)
        { channelProviders := sys.channelProviders,
          store := sys.store.pruneExpired now } 0 hnos
    have hev : handleMention env now oracle botId msg sys
        = ({ channelProviders := sys.channelProviders,
             store := sys.store.pruneExpired now },
           TurnEvent.chatCall p.id .auto st.thoughts
             :: (((hostHandledCalls p.supportedTools r).map
                   (fun c => TurnEvent.toolExec c.id c.name))
                 ++ [TurnEvent.chatCall p.id .choiceNone (r.thoughts <|> st.thoughts),
                     TurnEvent.replied apologyMessage])) := by
      rw [hturn]
      unfold runTurn
      simp only [hfc, hhc, Bool.false_eq_true, if_false, hexec, hp]
      rw [if_neg (fun hne => hne rfl)]
      simp only [hfu]
      simp [List.append_assoc]
    refine ⟨?_, ?_, ?_⟩
    · rw [hev]
    · rw [hev]
      exact hlive
    · rw [hev]
      exact getLast?_cons_append_pair _ _ _ _

/-- Oracle whose first chat call throws. -/
def c1OracleA : TurnOracle :=
  { firstChat := .error (), backend := fun _ => .ok "x",
    followUpChat := .error (), fetchedHistory := [] }

/-- A first response requesting one `summarize_messages` call. -/
def sumCallResponse : ProviderChatResponse :=
  { text := none,
    toolCalls := [{ id := "c1", name := "summarize_messages", arguments := .obj [] }],
    outputEntries := [ConversationEntry.tool_call "c1" "summarize_messages" (.obj [])],
    thoughts := none }

/-- Oracle whose tool execution throws and whose follow-up call throws. -/
def c1OracleB : TurnOracle :=
  { firstChat := .ok sumCallResponse, backend := fun _ => .error (),
    followUpChat := .error (), fetchedHistory := [] }

/-- C1 witness: both failure modes on the matching-provider fixture — the
first-call throw leaves exactly the pre-turn state and replies with the
apology, and a follow-up throw (after a non-switch tool ran) still leaves
the pre-turn state readable. -/
theorem C1_failed_turn_preserves_state_witness :
    (handleMention sampleEnv 1000 c1OracleA "bot" turnMsg turnSys
       = ({ channelProviders := turnSys.channelProviders,
            store := turnSys.store.pruneExpired 1000 },
          [TurnEvent.chatCall sampleGrok.id .auto turnState.thoughts,
           TurnEvent.replied apologyMessage]))
    ∧ alGet (handleMention sampleEnv 1000 c1OracleB "bot" turnMsg turnSys).1.store.store
        "chan" = some turnState := by
  constructor
  · exact ((C1_failed_turn_preserves_state sampleEnv 1000 c1OracleA "bot" turnMsg turnSys
      sampleGrok turnState rfl rfl (by decide) rfl).1 rfl).1
  · exact ((C1_failed_turn_preserves_state sampleEnv 1000 c1OracleB "bot" turnMsg turnSys
      sampleGrok turnState rfl rfl (by decide) rfl).2 sumCallResponse rfl rfl
      (by decide) rfl).2.1

/-- System state whose stored conversation is pinned to `grok` while the
channel itself is unpinned (so the turn resolves the default `openai`). -/
def c1MismatchSys : SysState :=
  { channelProviders := [],
    store := { timeoutMs := CONVERSATION_TIMEOUT, store := [("chan", turnState)] } }

/-- C1 counterexample: the claim promises that a failed turn leaves the
previously persisted state untouched ("a subsequent read returns the
pre-turn state") for EVERY failing turn — but when the resolved provider
differs from the state's pinned id, the init phase (before the failing
provider call) has already rewritten the persisted state: here the
pre-turn state carried continuation data `["G0"]` and pin `grok`, the
first chat call throws, the apology is sent, yet a subsequent read shows
cleared continuation data (and pin `openai`), not the pre-turn state. -/
theorem C1_claim_counterexample :
    ((handleMention sampleEnv 1000 c1OracleA "bot" turnMsg c1MismatchSys).2).getLast?
      = some (TurnEvent.replied apologyMessage)
    ∧ alGet c1MismatchSys.store.store "chan" = some turnState
    ∧ turnState.thoughts = some ["G0"]
    ∧ (alGet (handleMention sampleEnv 1000 c1OracleA "bot" turnMsg
         c1MismatchSys).1.store.store "chan").map ConversationState.thoughts
        = some none
    ∧ (alGet (handleMention sampleEnv 1000 c1OracleA "bot" turnMsg
         c1MismatchSys).1.store.store "chan").map ConversationState.providerId
        = some "openai" :=
  ⟨rfl, rfl, rfl, rfl, rfl⟩

/-! # Claim C5 — per-call tool-failure isolation -/

/-- One processed call always yields exactly one tool_result carrying the
call's id and name; a missing catalog tool yields the declining text, and
a throwing summarize handler yields the failed-tool text. -/
theorem processCall_spec (env : Env) (now : Int) (provider : AiProvider) (ch : String)
    (sys : SysState) (call : ProviderToolCall) (backend : Except Unit String) :
    ∃ content, (processCall env now provider ch sys call backend).2
        = ConversationEntry.tool_result call.id call.name content
      ∧ (catalogToolNames.contains call.name = false →
           content = toolUnsupportedMessage call.name)
      ∧ (call.name = "summarize_messages" → provider.hasSummarize = true →
           backend = Except.error () → content = toolFailedMessage call.name) := by
  unfold processCall
  by_cases hc : catalogToolNames.contains call.name = true
  · rw [if_pos hc]
    cases hr : (runHandler env now provider ch sys call.name call.arguments backend).2 with
    | ok out =>
      refine ⟨out, by simp [hr], fun hfalse => by rw [hc] at hfalse; exact Bool.noConfusion hfalse, ?_⟩
      intro h1 h2 h3
      exfalso
      unfold runHandler at hr
      rw [if_pos h1] at hr
      simp only [h2, if_true, h3] at hr
      exact Except.noConfusion hr
    | error e =>
      exact ⟨toolFailedMessage call.name, by simp [hr],
        fun hfalse => by rw [hc] at hfalse; exact Bool.noConfusion hfalse,
        fun _ _ _ => rfl⟩
  · rw [if_neg hc]
    rw [Bool.not_eq_true] at hc
    refine ⟨toolUnsupportedMessage call.name, rfl, fun _ => rfl, ?_⟩
    intro h1 _ _
    rw [h1] at hc
    simp [catalogToolNames] at hc

/-- The loop produces exactly one tool_result per call, positionally
matched, with the declining text for unknown tools and the failed text for
a throwing summarize handler; siblings are unaffected. -/
theorem execToolCalls_spec (env : Env) (now : Int) (provider : AiProvider) (ch : String)
    (backend : Nat → Except Unit String) :
    ∀ (calls : List ProviderToolCall) (sys : SysState) (idx : Nat),
    (execToolCalls env now provider ch backend sys idx calls).2.length = calls.length
    ∧ ∀ i c, calls[i]? = some c →
        ∃ content,
          (execToolCalls env now provider ch backend sys idx calls).2[i]?
            = some (ConversationEntry.tool_result c.id c.name content)
          ∧ (catalogToolNames.contains c.name = false →
               content = toolUnsupportedMessage c.name)
          ∧ (c.name = "summarize_messages" → provider.hasSummarize = true →
               backend (idx + i) = Except.error () →
               content = toolFailedMessage c.name) := by
  intro calls
  induction calls with
  | nil =>
    intro sys idx
    exact ⟨rfl, fun i c hc => by simp at hc⟩
  | cons call rest ih =>
    intro sys idx
    constructor
    · show ((execToolCalls env now provider ch backend
          (processCall env now provider ch sys call (backend idx)).1 (idx + 1) rest).2.length
          + 1 = rest.length + 1)
      rw [(ih (processCall env now provider ch sys call (backend idx)).1 (idx + 1)).1]
    · intro i c hc
      have hunf : (execToolCalls env now provider ch backend sys idx (call :: rest)).2
          = (processCall env now provider ch sys call (backend idx)).2
            :: (execToolCalls env now provider ch backend
                  (processCall env now provider ch sys call (backend idx)).1
                  (idx + 1) rest).2 := rfl
      cases i with
      | zero =>
        simp only [List.getElem?_cons_zero] at hc
        injection hc with hc
        subst hc
        obtain ⟨content, h1, h2, h3⟩ :=
          processCall_spec env now provider ch sys call (backend idx)
        refine ⟨content, ?_, h2, ?_⟩
        · rw [hunf, List.getElem?_cons_zero, h1]
        · intro ha hb hcc
          exact h3 ha hb (by rwa [Nat.add_zero] at hcc)
      | succ i =>
        simp only [List.getElem?_cons_succ] at hc
        obtain ⟨content, h1, h2, h3⟩ :=
          (ih (processCall env now provider ch sys call (backend idx)).1 (idx + 1)).2 i c hc
        refine ⟨content, ?_, h2, ?_⟩
        · rw [hunf, List.getElem?_cons_succ]
          exact h1
        · intro ha hb hcc
          exact h3 ha hb (by rwa [show (idx + 1) + i = idx + (i + 1) by omega])

/-- C5: the orchestrator processes the host-handled tool calls in the
order returned, producing exactly one tool_result per call — synthesizing
the declining text when no catalog tool matches, and catching a throwing
executor per call and converting it into the failed-tool text, with all
remaining calls still executed — and a turn whose tool round ran (with a
successful follow-up call) completes with the follow-up's reply, not the
generic apology. -/
theorem C5_tool_failures_isolated (env : Env) (now : Int) (oracle : TurnOracle)
    (botId : String) (msg : DiscordMsg) (sys : SysState) (p : AiProvider)
    (st : ConversationState) :
    (∀ (calls : List ProviderToolCall) (sysL : SysState) (idx : Nat),
      (execToolCalls env now p msg.channelId oracle.backend sysL idx calls).2.length
          = calls.length
      ∧ ∀ i c, calls[i]? = some c →
          ∃ content,
            (execToolCalls env now p msg.channelId oracle.backend sysL idx calls).2[i]?
              = some (ConversationEntry.tool_result c.id c.name content)
            ∧ (catalogToolNames.contains c.name = false →
                 content = toolUnsupportedMessage c.name)
            ∧ (c.name = "summarize_messages" → p.hasSummarize = true →
                 oracle.backend (idx + i) = Except.error () →
                 content = toolFailedMessage c.name))
    ∧ (getProviderForChannel env sys.channelProviders msg.channelId = some p →
       alGet sys.store.store msg.channelId = some st →
       now - st.timestamp ≤ sys.store.timeoutMs →
       st.providerId = p.id →
       ∀ r fu, oracle.firstChat = Except.ok r →
         (hostHandledCalls p.supportedTools r).isEmpty = false →
         oracle.followUpChat = Except.ok fu →
         ∃ pid2, (handleMention env now oracle botId msg sys).2
           = TurnEvent.chatCall p.id .auto st.thoughts
               :: (((hostHandledCalls p.supportedTools r).map
                     (fun c => TurnEvent.toolExec c.id c.name))
                   ++ TurnEvent.chatCall pid2 .choiceNone (r.thoughts <|> st.thoughts)
                     :: sendReplyEvents fu.text)) := by
  constructor
  · exact fun calls sysL idx =>
      execToolCalls_spec env now p msg.channelId oracle.backend calls sysL idx
  · intro hp hst hfresh hpid r fu hfc hhc hfu
    have hres : resolveState env now p oracle.fetchedHistory botId sys.store msg.channelId
        = (sys.store.pruneExpired now, some st) :=
      resolveState_live_matching env now p oracle.fetchedHistory botId sys.store
        msg.channelId st hst hfresh hpid
    have hturn : handleMention env now oracle botId msg sys
        = runTurn env now oracle msg p st
            { channelProviders := sys.channelProviders,
              store := sys.store.pruneExpired now } := by
      unfold handleMention
      rw [hp]
      simp only [hres]
    obtain ⟨pid2, tail, hev, _, htailok⟩ := runTurn_two_call_shape env now oracle msg p st
      { channelProviders := sys.channelProviders,
        store := sys.store.pruneExpired now } r hfc hhc
    refine ⟨pid2, ?_⟩
    rw [hturn, hev, htailok fu hfu]

/-- A summarize call whose executor will throw. -/
def wSumCall : ProviderToolCall :=
  { id := "c1", name := "summarize_messages", arguments := .obj [] }

/-- A call naming a tool absent from the catalog. -/
def wMysteryCall : ProviderToolCall :=
  { id := "c2", name := "mystery_tool", arguments := .obj [] }

/-- Oracle: first call returns one summarize tool call, every executor
backend throws, follow-up call succeeds. -/
def c5Oracle : TurnOracle :=
  { firstChat := .ok sumCallResponse, backend := fun _ => .error (),
    followUpChat := .ok followUpResponse, fetchedHistory := [] }

/-- C5 witness: a throwing summarize executor and an unknown tool in one
round — two tool_results (failed text and declining text, positionally
matched), and the full turn still ends in the follow-up's reply. -/
theorem C5_tool_failures_isolated_witness :
    (execToolCalls sampleEnv 1000 sampleGrok turnMsg.channelId c5Oracle.backend turnSys 0
        [wSumCall, wMysteryCall]).2.length = 2
    ∧ (∃ content,
        (execToolCalls sampleEnv 1000 sampleGrok turnMsg.channelId c5Oracle.backend turnSys 0
            [wSumCall, wMysteryCall]).2[0]?
          = some (ConversationEntry.tool_result "c1" "summarize_messages" content)
        ∧ content = toolFailedMessage "summarize_messages")
    ∧ (∃ content,
        (execToolCalls sampleEnv 1000 sampleGrok turnMsg.channelId c5Oracle.backend turnSys 0
            [wSumCall, wMysteryCall]).2[1]?
          = some (ConversationEntry.tool_result "c2" "mystery_tool" content)
        ∧ content = toolUnsupportedMessage "mystery_tool")
    ∧ (∃ pid2, (handleMention sampleEnv 1000 c5Oracle "bot" turnMsg turnSys).2
        = TurnEvent.chatCall sampleGrok.id .auto turnState.thoughts
            :: (((hostHandledCalls sampleGrok.supportedTools sumCallResponse).map
                  (fun c => TurnEvent.toolExec c.id c.name))
                ++ TurnEvent.chatCall pid2 .choiceNone
                     (sumCallResponse.thoughts <|> turnState.thoughts)
                  :: sendReplyEvents followUpResponse.text)) := by
  have h := C5_tool_failures_isolated sampleEnv 1000 c5Oracle "bot" turnMsg turnSys
    sampleGrok turnState
  have hloop := h.1 [wSumCall, wMysteryCall] turnSys 0
  refine ⟨hloop.1, ?_, ?_, ?_⟩
  · obtain ⟨content, h1, _, h3⟩ := hloop.2 0 wSumCall rfl
    exact ⟨content, h1, h3 rfl rfl rfl⟩
  · obtain ⟨content, h1, h2, _⟩ := hloop.2 1 wMysteryCall rfl
    exact ⟨content, h1, h2 rfl⟩
  · exact h.2 rfl rfl (by decide) rfl sumCallResponse followUpResponse rfl rfl rfl

/-! # Claim C6 — unregistered provider ids -/

/-- C6 (amended): for every provider id not present in the registry,
`setProviderForChannel` returns the literal "not registered" error naming
the id and leaves the channel pins untouched (so the active provider for
the channel is unchanged), and — for ids that are nonempty and free of
surrounding whitespace (the handler trims its input and intercepts a
blank id with a fixed prompt message BEFORE consulting the registry) —
the `switch_provider` tool handler returns the registry's error string
verbatim with no state change; for a registered id `setProviderForChannel`
pins the channel and returns the adapter. -/
theorem C6_unregistered_switch_rejected (env : Env) (cps : List (String × String))
    (ch pid : String) (sys : SysState) (now : Int) (provider : AiProvider)
    (backend : Except Unit String) :
    (alGet env.providers pid = none →
       setProviderForChannel env cps ch pid
         = (cps, { provider := none, error := some (notRegisteredError pid) })
       ∧ getActiveProviderId env (setProviderForChannel env cps ch pid).1 ch
           = getActiveProviderId env cps ch)
    ∧ (alGet env.providers pid = none → jsTrim pid = pid → pid ≠ "" →
       runHandler env now provider ch sys "switch_provider"
           (.obj [("provider_id", .str pid)]) backend
         = (sys, Except.ok (notRegisteredError pid)))
    ∧ (∀ p, alGet env.providers pid = some p →
       setProviderForChannel env cps ch pid
         = (alSet cps ch pid, { provider := some p, error := none })) := by
  refine ⟨?_, ?_, ?_⟩
  · intro hmiss
    have h1 : setProviderForChannel env cps ch pid
        = (cps, { provider := none, error := some (notRegisteredError pid) }) := by
      unfold setProviderForChannel
      rw [hmiss]
    exact ⟨h1, by rw [h1]⟩
  · intro hmiss htrim hne
    unfold runHandler
    rw [if_neg (by decide), if_neg (by decide)]
    have hargs : jsTrim (jsToString ((jsGet (Json.obj [("provider_id", Json.str pid)])
        "provider_id").getD (Json.str ""))) = pid := by
      show jsTrim (jsToString (Json.str pid)) = pid
      exact htrim
    rw [hargs, if_neg hne]
    unfold switchProviderForChannel setProviderForChannel
    rw [hmiss]
  · intro p hp
    unfold setProviderForChannel
    rw [hp]

/-- C6 witness: the amended theorem at the unregistered id `gemini` (both
the registry and the tool handler) and the registered id `grok`. -/
theorem C6_unregistered_switch_rejected_witness :
    (setProviderForChannel sampleEnv [("chan", "openai")] "chan" "gemini"
       = ([("chan", "openai")],
          { provider := none, error := some (notRegisteredError "gemini") }))
    ∧ runHandler sampleEnv 1000 sampleOpenAI "chan" turnSys "switch_provider"
        (.obj [("provider_id", .str "gemini")]) (.ok "unused")
        = (turnSys, Except.ok (notRegisteredError "gemini"))
    ∧ setProviderForChannel sampleEnv [("chan", "openai")] "chan" "grok"
        = (alSet [("chan", "openai")] "chan" "grok",
           { provider := some sampleGrok, error := none }) := by
  refine ⟨?_, ?_, ?_⟩
  · exact ((C6_unregistered_switch_rejected sampleEnv [("chan", "openai")] "chan" "gemini"
      turnSys 1000 sampleOpenAI (.ok "unused")).1 rfl).1
  · exact (C6_unregistered_switch_rejected sampleEnv [("chan", "openai")] "chan" "gemini"
      turnSys 1000 sampleOpenAI (.ok "unused")).2.1 rfl rfl (by decide)
  · exact (C6_unregistered_switch_rejected sampleEnv [("chan", "openai")] "chan" "grok"
      turnSys 1000 sampleOpenAI (.ok "unused")).2.2 sampleGrok rfl

/-- C6 counterexample: the claim says that for EVERY id not present in the
registry the `switch_provider` tool handler returns the registry's error
string verbatim — but the empty string is not present in the registry and
the handler nonetheless returns its own fixed prompt message, never
consulting the registry (`String(args.provider_id ?? '').trim()` is blank,
intercepted before `ctx.switchProvider`). -/
theorem C6_claim_counterexample :
    alGet sampleEnv.providers "" = none
    ∧ runHandler sampleEnv 1000 sampleOpenAI "chan" turnSys "switch_provider"
        (.obj [("provider_id", .str "")]) (.ok "unused")
        = (turnSys, Except.ok "Please provide a provider_id to switch to.")
    ∧ "Please provide a provider_id to switch to." ≠ notRegisteredError "" := by
  exact ⟨rfl, rfl, by decide⟩

/-! # Claim C10 — continuation data across provider switches -/

/-- `get` on a live entry returns it and leaves the store untouched. -/
theorem ConversationStore.get_live (s : ConversationStore) (now : Int) (ch : String)
    (st : ConversationState)
    (hst : alGet s.store ch = some st)
    (hfresh : now - st.timestamp ≤ s.timeoutMs) :
    s.get now ch = (s, some st) := by
  unfold ConversationStore.get
  rw [hst]
  simp only [if_neg (not_lt.mpr hfresh)]

/-- C10 (amended): a successful provider switch writes back, IMMEDIATELY,
state with cleared continuation data: the `switch_provider` callback pins
the channel and stores `{new provider id, entries with only the leading
developer message rewritten, thoughts := none, fresh timestamp}`, and the
turn-start pinned-id-mismatch path stores the same shape. However, the
END-OF-TURN write-back computes its continuation data as
`followUp.thoughts ?? firstResponse.thoughts ?? state.thoughts`, so when
the final call returns none the previous provider's continuation data is
re-persisted under the new provider id — continuation data CAN cross a
provider boundary (see the counterexample). -/
theorem C10_switch_clears_continuation (env : Env) (now : Int) (sys : SysState)
    (ch pid : String) (p : AiProvider) (st : ConversationState)
    (hp : alGet env.providers pid = some p)
    (hst : alGet sys.store.store ch = some st)
    (hfresh : now - st.timestamp ≤ sys.store.timeoutMs) :
    (switchProviderForChannel env now sys ch pid env.devPromptFor
      = ({ channelProviders := alSet sys.channelProviders ch pid,
           store := sys.store.set ch
             { providerId := p.id,
               entries := refreshDeveloperMessage (env.devPromptFor p) st.entries,
               thoughts := none, timestamp := now } },
         { provider := some p, error := none }))
    ∧ (∀ prompt c rest,
        st.entries = ConversationEntry.message .developer c :: rest →
        refreshDeveloperMessage prompt st.entries
          = ConversationEntry.message .developer [.text prompt] :: rest)
    ∧ (∀ (provider2 : AiProvider) (fetched : List DiscordMsg) (botId : String),
        0 ≤ sys.store.timeoutMs →
        st.providerId ≠ provider2.id →
        (resolveState env now provider2 fetched botId sys.store ch).2
          = some { providerId := provider2.id,
                   entries := refreshDeveloperMessage (env.devPromptFor provider2) st.entries,
                   thoughts := none, timestamp := now }) := by
  refine ⟨?_, ?_, ?_⟩
  · unfold switchProviderForChannel setProviderForChannel
    rw [hp]
    simp only [ConversationStore.get_live sys.store now ch st hst hfresh]
  · intro prompt c rest hdev
    rw [hdev]
    rfl
  · intro provider2 fetched botId h0 hne
    have h1 : alGet (sys.store.pruneExpired now).store ch = some st :=
      pruneExpired_get_live sys.store now ch st hst hfresh
    have hget1 : (sys.store.pruneExpired now).get now ch
        = (sys.store.pruneExpired now, some st) :=
      ConversationStore.get_live _ now ch st h1 hfresh
    have hswitch : (sys.store.pruneExpired now).switchProvider now ch provider2.id
        = (sys.store.pruneExpired now).set ch
            { providerId := provider2.id, entries := st.entries,
              timestamp := now, thoughts := st.thoughts } := by
      unfold ConversationStore.switchProvider
      rw [hget1]
    have hget2 : ((sys.store.pruneExpired now).set ch
          { providerId := provider2.id, entries := st.entries,
            timestamp := now, thoughts := st.thoughts }).get now ch
        = ((sys.store.pruneExpired now).set ch
            { providerId := provider2.id, entries := st.entries,
              timestamp := now, thoughts := st.thoughts },
           some { providerId := provider2.id, entries := st.entries,
                  timestamp := now, thoughts := st.thoughts }) :=
      ConversationStore.get_live _ now ch _ (alGet_alSet_self _ _ _) (by simpa using h0)
    have hget3 : ∀ stF : ConversationState, stF.timestamp = now →
        (((sys.store.pruneExpired now).set ch
            { providerId := provider2.id, entries := st.entries,
              timestamp := now, thoughts := st.thoughts }).set ch stF).get now ch
          = (((sys.store.pruneExpired now).set ch
              { providerId := provider2.id, entries := st.entries,
                timestamp := now, thoughts := st.thoughts }).set ch stF, some stF) := by
      intro stF hts
      refine ConversationStore.get_live _ now ch stF ?_ ?_
      · exact alGet_alSet_self _ _ _
      · rw [hts]
        simpa using h0
    unfold resolveState
    simp only [hget1]
    rw [if_pos hne]
    simp only [hswitch, hget2]
    rw [hget3 _ rfl]

/-- C10 witness: the amended theorem on the concrete fixtures — switching
channel `chan` from `grok` to `openai` immediately persists state with
`thoughts := none` and the rewritten developer prompt, and the turn-start
mismatch path does the same. -/
theorem C10_switch_clears_continuation_witness :
    (switchProviderForChannel sampleEnv 1000 turnSys "chan" "openai" sampleEnv.devPromptFor
      = ({ channelProviders := alSet turnSys.channelProviders "chan" "openai",
           store := turnSys.store.set "chan"
             { providerId := sampleOpenAI.id,
               entries := refreshDeveloperMessage (sampleEnv.devPromptFor sampleOpenAI)
                 turnState.entries,
               thoughts := none, timestamp := 1000 } },
         { provider := some sampleOpenAI, error := none }))
    ∧ refreshDeveloperMessage "PROMPT:openai" turnState.entries
        = [ConversationEntry.message .developer [.text "PROMPT:openai"]]
    ∧ (resolveState sampleEnv 1000 sampleOpenAI [] "bot" turnSys.store "chan").2
        = some { providerId := sampleOpenAI.id,
                 entries := refreshDeveloperMessage
                   (sampleEnv.devPromptFor sampleOpenAI) turnState.entries,
                 thoughts := none, timestamp := 1000 } := by
  have h := C10_switch_clears_continuation sampleEnv 1000 turnSys "chan" "openai"
    sampleOpenAI turnState rfl rfl (by decide)
  refine ⟨h.1, ?_, ?_⟩
  · exact h.2.1 "PROMPT:openai" [NormalizedContentPart.text "PROMPT:grok"] [] rfl
  · exact h.2.2 sampleOpenAI [] "bot" (by decide) (by decide)

/-- C10 counterexample: the claim says continuation data never crosses a
provider boundary — but after the fixture turn in which `switch_provider`
successfully repinned `chan` from Grok to OpenAI mid-turn, the state the
orchestrator writes back at END OF TURN carries the Grok first response's
continuation data `["G1"]` under the new provider id `openai` (the
follow-up returned none, so the write-back fell back to
`firstResponse.thoughts`): the discarded value was not the one persisted. -/
theorem C10_claim_counterexample :
    switchCallResponse.thoughts = some ["G1"]
    ∧ turnState.providerId = "grok"
    ∧ (alGet (handleMention sampleEnv 1000 turnOracle "bot" turnMsg turnSys).1.store.store
         "chan").map ConversationState.providerId = some "openai"
    ∧ (alGet (handleMention sampleEnv 1000 turnOracle "bot" turnMsg turnSys).1.store.store
         "chan").map ConversationState.thoughts = some (some ["G1"]) :=
  ⟨rfl, rfl, rfl, rfl⟩
